import Mathlib

/-!
Verification of the Feedback Broker of the Computer-Vision-ASL repository
(`fastapi-backend/services/bedrock_service.py`).

The Python class `BedrockService` is embedded shallowly: its mutable fields
become the record `BedrockState`, each method becomes a Lean function that
takes and returns the state explicitly, and the ambient clock
(`time.time()` / `datetime.now()`) becomes an explicit `now : Nat`
parameter measured in seconds.  Python dictionaries (insertion ordered,
unique keys) are embedded as association lists `List (String × α)` with
operations that mirror dict semantics: lookup of the first matching key,
in-place overwrite of an existing key, append of a new key, deletion of the
present key.
-/

set_option autoImplicit false

namespace ASLFeedback

/-! ## Definitions: the embedding of `BedrockService` -/

/-- Python `d.get(k)` / `k in d`: first entry whose key equals `k`. -/
def dictGet {α : Type} : List (String × α) → String → Option α
  | [], _ => none
  | (k', v') :: rest, k => if k' = k then some v' else dictGet rest k

/-- Python `d[k] = v`: overwrite in place when the key is present,
append at the end when it is new. -/
def dictInsert {α : Type} : List (String × α) → String → α → List (String × α)
  | [], k, v => [(k, v)]
  | (k', v') :: rest, k, v =>
      if k' = k then (k, v) :: rest else (k', v') :: dictInsert rest k v

/-- Python `del d[k]`: remove the (first) entry with key `k`. -/
def dictDelete {α : Type} : List (String × α) → String → List (String × α)
  | [], _ => []
  | (k', v') :: rest, k => if k' = k then rest else (k', v') :: dictDelete rest k

/-- The dataclass `FeedbackResponse` of `bedrock_service.py`.  The
`timestamp : datetime` field is embedded as seconds (`Nat`). -/
structure FeedbackResponse where
  success : Bool
  feedback : String
  error_code : String
  sign : String
  timestamp : Nat
  source : String
  cached : Bool := false
deriving DecidableEq, Repr

/-- One value of `self.cache`: the dict
`{ 'response': ..., 'timestamp': datetime.now() }` built in `_cache_feedback`. -/
structure CacheEntry where
  response : FeedbackResponse
  timestamp : Nat
deriving DecidableEq, Repr

/-- The `self.request_stats` dict of counters. -/
structure RequestStats where
  total_requests : Nat
  bedrock_requests : Nat
  fallback_requests : Nat
  cached_requests : Nat
  rate_limited_requests : Nat
deriving DecidableEq, Repr

/-- The mutable fields of the `BedrockService` instance.  `client : Bool`
embeds `self.client is not None` (whether the boto3 client was created);
configuration fields keep their source names. -/
structure BedrockState where
  enabled : Bool
  client : Bool
  max_requests_per_minute : Nat
  max_requests_per_hour : Nat
  max_requests_per_user_per_minute : Nat
  request_timestamps : List Nat
  hourly_request_timestamps : List Nat
  user_request_limits : List (String × List Nat)
  request_stats : RequestStats
  cache : List (String × CacheEntry)
  cache_ttl_seconds : Nat
  max_cache_size : Nat
deriving DecidableEq, Repr

/-- `self.fallback_messages` (lines 103-137 of `bedrock_service.py`). -/
def fallback_messages : List (String × String) :=
  [("THUMB_LOW", "Great effort! Try lifting your thumb just a bit higher - you\x27re almost there!"),
   ("THUMB_HIGH", "Nice work! Lower your thumb slightly for better form."),
   ("THUMB_ANGLE", "Good job! Adjust your thumb angle to match the target position."),
   ("FINGERS_SPREAD", "Good job! Bring your fingers a little closer together."),
   ("FINGERS_CLOSED", "You\x27re doing well! Spread your fingers out just a touch more."),
   ("FINGERS_CURVED", "Nice effort! Try straightening your fingers a bit more."),
   ("FINGERS_STRAIGHT", "Great work! Let your fingers curve more naturally."),
   ("HAND_ANGLE", "Almost perfect! Adjust your hand angle slightly."),
   ("HAND_ROTATION", "Keep it up! Rotate your hand slightly to match the target position."),
   ("WRIST_BEND", "Nice effort! Keep your wrist more relaxed and natural."),
   ("WRIST_ANGLE", "Good progress! Adjust your wrist angle for better form."),
   ("ARM_POSITION", "Great start! Try adjusting your arm position a bit."),
   ("ELBOW_WIDE", "Good progress! Bring your elbow in a little closer to your body."),
   ("ELBOW_NARROW", "You\x27re getting there! Open up your elbow angle just a bit more."),
   ("ELBOW_HEIGHT", "Nice work! Adjust your elbow height to match the target."),
   ("TIMING_FAST", "Excellent effort! Try slowing down your movement just a little."),
   ("TIMING_SLOW", "Nice work! You can speed up your movement slightly."),
   ("MOVEMENT_JERKY", "Good job! Try to make your movement smoother and more fluid."),
   ("MOVEMENT_INCOMPLETE", "Great start! Complete the full range of motion for this sign."),
   ("GENERAL_FORM", "You\x27re making progress! Keep practicing and you\x27ll get it!"),
   ("HAND_SHAPE", "Nice effort! Refine your hand shape to match the target."),
   ("SPATIAL_POSITION", "Good work! Adjust your hand position relative to your body.")]

/-- `self.fallback_messages.get(error_code, "Keep practicing - you're doing great!")`
as it appears on every fallback path of `get_feedback`. -/
def fallbackFor (error_code : String) : String :=
  (dictGet fallback_messages error_code).getD "Keep practicing - you\x27re doing great!"

/-- `self.error_prompts` (lines 66-100): every template reads
`"User is learning ASL sign '{sign}' and " ++ <rest>`; this list stores the
per-code `<rest>` parts. -/
def error_prompts_rest : List (String × String) :=
  [("THUMB_LOW", "their thumb is positioned too low compared to the target. The thumb should be higher for proper hand shape."),
   ("THUMB_HIGH", "their thumb is positioned too high compared to the target. The thumb needs to be lowered slightly."),
   ("THUMB_ANGLE", "their thumb angle is incorrect. The thumb orientation needs adjustment."),
   ("FINGERS_SPREAD", "their fingers are too spread apart. The fingers should be closer together for this sign."),
   ("FINGERS_CLOSED", "their fingers are too closed together. The fingers need more separation."),
   ("FINGERS_CURVED", "their fingers are too curved. The fingers should be straighter."),
   ("FINGERS_STRAIGHT", "their fingers are too straight. The fingers should have more natural curve."),
   ("HAND_ANGLE", "their hand angle is incorrect. The hand orientation needs to be adjusted."),
   ("HAND_ROTATION", "their hand rotation is incorrect. The palm direction should match the target."),
   ("WRIST_BEND", "their wrist is bent incorrectly. The wrist should be more neutral."),
   ("WRIST_ANGLE", "their wrist angle needs adjustment for proper form."),
   ("ARM_POSITION", "their arm position needs adjustment. The arm should be repositioned."),
   ("ELBOW_WIDE", "their elbow angle is too wide. The elbow should be closer to the body."),
   ("ELBOW_NARROW", "their elbow angle is too narrow. The elbow needs more space from the body."),
   ("ELBOW_HEIGHT", "their elbow height is incorrect. The elbow position should be adjusted vertically."),
   ("TIMING_FAST", "their movement is too fast. The sign should be performed more slowly."),
   ("TIMING_SLOW", "their movement is too slow. The sign can be performed more quickly."),
   ("MOVEMENT_JERKY", "their movement is too jerky. The motion should be smoother."),
   ("MOVEMENT_INCOMPLETE", "their movement is incomplete. The full range of motion is needed."),
   ("GENERAL_FORM", "their overall form needs improvement. Multiple aspects need adjustment."),
   ("HAND_SHAPE", "their hand shape is not quite right. The finger configuration needs refinement."),
   ("SPATIAL_POSITION", "their hand is in the wrong spatial location. The position relative to the body needs adjustment.")]

/-- `_create_prompt` (lines 276-293):
`self.error_prompts.get(error_code, default).format(sign=sign)` followed by
the fixed instructor wrapper.  The `{sign}` substitution of `.format` is
performed directly by string concatenation. -/
def create_prompt (sign error_code : String) : String :=
  let base_prompt := "User is learning ASL sign \x27" ++ sign ++ "\x27 and " ++
    (dictGet error_prompts_rest error_code).getD "needs guidance."
  "You are an encouraging ASL instructor. " ++ base_prompt ++
    "\n\nProvide a short, positive, and specific tip (1-2 sentences) to help them improve. \nBe encouraging and focus on what they can do better. Keep it under 50 words.\nUse encouraging language and be specific about the correction needed.\n\nExamples:\n- \"Great effort! Try lifting your thumb just a bit higher - you\x27re almost there!\"\n- \"Nice work! Relax your fingers slightly and let them flow more naturally.\"\n- \"You\x27re doing well! Just adjust your wrist angle slightly and you\x27ll nail it!\"\n"

/-- `_generate_cache_key` (lines 191-194) computes
`hashlib.md5(f"{sign}:{error_code}".encode()).hexdigest()`.  The md5 digest
is a deterministic function of the string `sign ++ ":" ++ error_code`, so
the key is embedded by that preimage string: equal preimages give equal
md5 keys, which is the only property of the digest the service relies on. -/
def generate_cache_key (sign error_code : String) : String :=
  sign ++ ":" ++ error_code

/-- `_is_rate_limited` (lines 196-230): prunes the two global windows,
checks global-minute then global-hour ceilings, then lazily creates and
prunes the caller's window and checks the per-user ceiling.  Returns the
`(is_limited, reason)` pair together with the mutated state. -/
def is_rate_limited (s : BedrockState) (user_id : String) (now : Nat) :
    (Bool × String) × BedrockState :=
  let rts := s.request_timestamps.filter (fun ts => now - ts < 60)
  let hts := s.hourly_request_timestamps.filter (fun ts => now - ts < 3600)
  let s1 := { s with request_timestamps := rts, hourly_request_timestamps := hts }
  if s.max_requests_per_minute ≤ rts.length then
    ((true, "global_minute_limit"), s1)
  else if s.max_requests_per_hour ≤ hts.length then
    ((true, "global_hour_limit"), s1)
  else
    let user_window := ((dictGet s.user_request_limits user_id).getD []).filter
      (fun ts => now - ts < 60)
    let s2 := { s1 with
      user_request_limits := dictInsert s.user_request_limits user_id user_window }
    if s.max_requests_per_user_per_minute ≤ user_window.length then
      ((true, "user_minute_limit"), s2)
    else
      ((false, ""), s2)

/-- `_add_request_timestamp` (lines 232-244): appends `now` to both global
windows and the caller's window, and increments `total_requests`. -/
def add_request_timestamp (s : BedrockState) (user_id : String) (now : Nat) :
    BedrockState :=
  { s with
    request_timestamps := s.request_timestamps ++ [now],
    hourly_request_timestamps := s.hourly_request_timestamps ++ [now],
    user_request_limits := dictInsert s.user_request_limits user_id
      (((dictGet s.user_request_limits user_id).getD []) ++ [now]),
    request_stats := { s.request_stats with
      total_requests := s.request_stats.total_requests + 1 } }

/-- `_get_cached_feedback` (lines 246-261).  On an expired entry the entry
is deleted.  On a hit the code executes `response = cached_item['response']`
then `response.cached = True`: `response` aliases the stored object, so the
stored record's `cached` flag is mutated in place; the embedding makes that
aliasing explicit by writing the flag back into the cache. -/
def get_cached_feedback (s : BedrockState) (cache_key : String) (now : Nat) :
    Option FeedbackResponse × BedrockState :=
  match dictGet s.cache cache_key with
  | none => (none, s)
  | some cached_item =>
      if s.cache_ttl_seconds < now - cached_item.timestamp then
        (none, { s with cache := dictDelete s.cache cache_key })
      else
        let response := { cached_item.response with cached := true }
        (some response,
         { s with cache := (dictInsert s.cache cache_key
            ({ cached_item with response := response })) })

/-- `min(self.cache.keys(), key=lambda k: self.cache[k]['timestamp'])`:
the first entry (in insertion order) carrying the smallest timestamp,
`none` on an empty cache (where Python's `min` raises `ValueError`). -/
def oldestEntry : List (String × CacheEntry) → Option (String × CacheEntry)
  | [] => none
  | p :: rest =>
      match oldestEntry rest with
      | none => some p
      | some q => if q.2.timestamp < p.2.timestamp then some q else some p

/-- `_cache_feedback` (lines 263-274): when `len(cache) >= max_cache_size`
the oldest entry is deleted before the insert; on an empty cache that
branch evaluates `min` over an empty sequence and raises, embedded as
`Except.error`. -/
def cache_feedback (s : BedrockState) (cache_key : String)
    (response : FeedbackResponse) (now : Nat) : Except String BedrockState :=
  if s.max_cache_size ≤ s.cache.length then
    match oldestEntry s.cache with
    | none => Except.error "ValueError: min() arg is an empty sequence"
    | some p =>
        Except.ok { s with cache :=
          (dictInsert (dictDelete s.cache p.1) cache_key
            ({ response := response, timestamp := now })) }
  else
    Except.ok { s with cache :=
      (dictInsert s.cache cache_key ({ response := response, timestamp := now })) }

/-- Outcome of one `_call_bedrock` invocation, injected as an oracle:
`ok text` for a successful model reply, `clientError` for a raised
`botocore ClientError`, `otherError` for any other exception. -/
inductive UpstreamOutcome where
  | ok (text : String)
  | clientError
  | otherError
deriving DecidableEq, Repr

/-- `self.request_stats['cached_requests'] += 1` (line 338). -/
def incCached (s : BedrockState) : BedrockState :=
  { s with request_stats := { s.request_stats with
      cached_requests := s.request_stats.cached_requests + 1 } }

/-- `self.request_stats['rate_limited_requests'] += 1` (line 346). -/
def incRateLimited (s : BedrockState) : BedrockState :=
  { s with request_stats := { s.request_stats with
      rate_limited_requests := s.request_stats.rate_limited_requests + 1 } }

/-- `self.request_stats['fallback_requests'] += 1` (lines 364, 400, 414). -/
def incFallback (s : BedrockState) : BedrockState :=
  { s with request_stats := { s.request_stats with
      fallback_requests := s.request_stats.fallback_requests + 1 } }

/-- `self.request_stats['bedrock_requests'] += 1` (line 382). -/
def incBedrock (s : BedrockState) : BedrockState :=
  { s with request_stats := { s.request_stats with
      bedrock_requests := s.request_stats.bedrock_requests + 1 } }

/-- `get_feedback` (lines 319-424), the broker's single entry point.
`upstream` is the injected outcome of `_call_bedrock`; `now` stands for
both `datetime.now()` and `time.time()` taken during the call.  A Python
exception escaping the method (only possible from `_cache_feedback`'s
`min` on an empty cache) is `Except.error`.  Inside the `try` block a
failing cache write of the successful provider response is caught by the
generic `except Exception` handler, which builds the
`fallback_unexpected_error` response and attempts one more cache write;
a cache-write failure on any `except` path or pre-`try` path propagates. -/
def get_feedback (upstream : String → UpstreamOutcome) (s : BedrockState)
    (sign error_code user_id : String) (now : Nat) :
    Except String (FeedbackResponse × BedrockState) :=
  match get_cached_feedback s (generate_cache_key sign error_code) now with
  | (some cached_response, s1) => Except.ok (cached_response, incCached s1)
  | (none, s1) =>
      match is_rate_limited s1 user_id now with
      | ((true, limit_reason), s2) =>
          let response : FeedbackResponse :=
            { success := true, feedback := fallbackFor error_code,
              error_code := error_code, sign := sign, timestamp := now,
              source := "fallback_rate_limited_" ++ limit_reason }
          Except.map (fun s4 => (response, s4))
            (cache_feedback (incRateLimited s2) (generate_cache_key sign error_code)
              response now)
      | ((false, _), s2) =>
          let s3 := add_request_timestamp s2 user_id now
          if s3.enabled = false ∨ s3.client = false then
            let response : FeedbackResponse :=
              { success := true, feedback := fallbackFor error_code,
                error_code := error_code, sign := sign, timestamp := now,
                source := "fallback" }
            Except.map (fun s4 => (response, s4))
              (cache_feedback (incFallback s3) (generate_cache_key sign error_code)
                response now)
          else
            match upstream (create_prompt sign error_code) with
            | UpstreamOutcome.ok feedback_text =>
                let response : FeedbackResponse :=
                  { success := true, feedback := feedback_text,
                    error_code := error_code, sign := sign, timestamp := now,
                    source := "bedrock" }
                match cache_feedback (incBedrock s3)
                    (generate_cache_key sign error_code) response now with
                | Except.ok s5 => Except.ok (response, s5)
                | Except.error _ =>
                    let response2 : FeedbackResponse :=
                      { success := false, feedback := fallbackFor error_code,
                        error_code := error_code, sign := sign, timestamp := now,
                        source := "fallback_unexpected_error" }
                    Except.map (fun s6 => (response2, s6))
                      (cache_feedback (incFallback (incBedrock s3))
                        (generate_cache_key sign error_code) response2 now)
            | UpstreamOutcome.clientError =>
                let response : FeedbackResponse :=
                  { success := false, feedback := fallbackFor error_code,
                    error_code := error_code, sign := sign, timestamp := now,
                    source := "fallback_bedrock_error" }
                Except.map (fun s4 => (response, s4))
                  (cache_feedback (incFallback s3)
                    (generate_cache_key sign error_code) response now)
            | UpstreamOutcome.otherError =>
                let response : FeedbackResponse :=
                  { success := false, feedback := fallbackFor error_code,
                    error_code := error_code, sign := sign, timestamp := now,
                    source := "fallback_unexpected_error" }
                Except.map (fun s4 => (response, s4))
                  (cache_feedback (incFallback s3)
                    (generate_cache_key sign error_code) response now)

/-- The record returned by `get_rate_limit_status` (lines 483-524),
flattened: `global_limits.minute`, `global_limits.hour` and
`user_limits.minute`, each with `current`, `max` and `remaining`. -/
structure RateLimitStatus where
  user_id : String
  is_limited : Bool
  limit_reason : String
  minute_current : Nat
  minute_max : Nat
  minute_remaining : Nat
  hour_current : Nat
  hour_max : Nat
  hour_remaining : Nat
  user_minute_current : Nat
  user_minute_max : Nat
  user_minute_remaining : Nat
deriving DecidableEq, Repr

/-- `get_rate_limit_status` (lines 483-524): prunes both global windows and
the caller's window (when present), then calls `_is_rate_limited` and
assembles the report.  `max(0, m - c)` is Nat truncated subtraction. -/
def get_rate_limit_status (s : BedrockState) (user_id : String) (now : Nat) :
    RateLimitStatus × BedrockState :=
  let rts := s.request_timestamps.filter (fun ts => now - ts < 60)
  let hts := s.hourly_request_timestamps.filter (fun ts => now - ts < 3600)
  let s1 := { s with request_timestamps := rts, hourly_request_timestamps := hts }
  let pruned : Nat × BedrockState :=
    match dictGet s1.user_request_limits user_id with
    | some user_window =>
        let w := user_window.filter (fun ts => now - ts < 60)
        (w.length,
         { s1 with user_request_limits := dictInsert s1.user_request_limits user_id w })
    | none => (0, s1)
  let user_requests := pruned.1
  let limited := is_rate_limited pruned.2 user_id now
  ({ user_id := user_id,
     is_limited := limited.1.1,
     limit_reason := limited.1.2,
     minute_current := rts.length,
     minute_max := s.max_requests_per_minute,
     minute_remaining := s.max_requests_per_minute - rts.length,
     hour_current := hts.length,
     hour_max := s.max_requests_per_hour,
     hour_remaining := s.max_requests_per_hour - hts.length,
     user_minute_current := user_requests,
     user_minute_max := s.max_requests_per_user_per_minute,
     user_minute_remaining := s.max_requests_per_user_per_minute - user_requests },
   limited.2)

/-- `reset_statistics` (lines 526-537): zeroes the five counters and
returns the previous snapshot. -/
def reset_statistics (s : BedrockState) : RequestStats × BedrockState :=
  (s.request_stats,
   { s with request_stats :=
      ({ total_requests := 0, bedrock_requests := 0, fallback_requests := 0,
         cached_requests := 0, rate_limited_requests := 0 }) })

/-- Post-state projection of a `get_feedback` outcome (the Python object's
state after the call; mutations on a raising path are not tracked, no claim
depends on them). -/
def runState (x : Except String (FeedbackResponse × BedrockState))
    (d : BedrockState) : BedrockState :=
  match x with
  | Except.ok p => p.2
  | Except.error _ => d

/-- Response projection of a `get_feedback` outcome. -/
def runResponse (x : Except String (FeedbackResponse × BedrockState))
    (d : FeedbackResponse) : FeedbackResponse :=
  match x with
  | Except.ok p => p.1
  | Except.error _ => d

/-- Whether a `get_feedback` outcome returned normally. -/
def runOk (x : Except String (FeedbackResponse × BedrockState)) : Bool :=
  match x with
  | Except.ok _ => true
  | Except.error _ => false

/-- The spec's language-neutral provenance enum for `FeedbackResult.origin`
(spec section 3). -/
inductive Origin where
  | provider
  | fallback
  | fallback_quota_global_minute
  | fallback_quota_global_hour
  | fallback_quota_user_minute
  | fallback_error
deriving DecidableEq, Repr

/-- Correspondence between the code's `source` strings and the spec's
`origin` enum: `'bedrock'` is the provider origin, the three
`'fallback_rate_limited_<tier>_limit'` strings are the three quota
origins, and the two caught-exception strings are `fallback_error`. -/
def originOf (source : String) : Origin :=
  if source = "bedrock" then Origin.provider
  else if source = "fallback_rate_limited_global_minute_limit" then
    Origin.fallback_quota_global_minute
  else if source = "fallback_rate_limited_global_hour_limit" then
    Origin.fallback_quota_global_hour
  else if source = "fallback_rate_limited_user_minute_limit" then
    Origin.fallback_quota_user_minute
  else if source = "fallback_bedrock_error" then Origin.fallback_error
  else if source = "fallback_unexpected_error" then Origin.fallback_error
  else Origin.fallback

/-- The reason string `_is_rate_limited` reports for each violated tier. -/
def reasonString : Origin → String
  | Origin.fallback_quota_global_minute => "global_minute_limit"
  | Origin.fallback_quota_global_hour => "global_hour_limit"
  | Origin.fallback_quota_user_minute => "user_minute_limit"
  | _ => ""

/-- The admission decision exactly as spec section 4.3 words it: prune
each window (drop timestamps older than its duration), then compare each
window's length against its ceiling in the fixed priority order
global-per-minute, global-per-hour, per-caller-per-minute, returning the
first violated tier; admitted when none is violated. -/
def admit_spec (s : BedrockState) (user_id : String) (now : Nat) : Bool × String :=
  let gm := s.request_timestamps.filter (fun ts => now - ts < 60)
  let gh := s.hourly_request_timestamps.filter (fun ts => now - ts < 3600)
  let um := ((dictGet s.user_request_limits user_id).getD []).filter
    (fun ts => now - ts < 60)
  if s.max_requests_per_minute ≤ gm.length then (true, "global_minute_limit")
  else if s.max_requests_per_hour ≤ gh.length then (true, "global_hour_limit")
  else if s.max_requests_per_user_per_minute ≤ um.length then
    (true, "user_minute_limit")
  else (false, "")

/-- All five counters at zero. -/
def zeroStats : RequestStats :=
  { total_requests := 0, bedrock_requests := 0, fallback_requests := 0,
    cached_requests := 0, rate_limited_requests := 0 }

/-- A freshly constructed service with the upstream disabled and the
documented default configuration (ceilings 10/100/3, TTL 300, cache 100). -/
def baseState : BedrockState :=
  { enabled := false, client := false,
    max_requests_per_minute := 10, max_requests_per_hour := 100,
    max_requests_per_user_per_minute := 3,
    request_timestamps := [], hourly_request_timestamps := [],
    user_request_limits := [], request_stats := zeroStats, cache := [],
    cache_ttl_seconds := 300, max_cache_size := 100 }

/-- An upstream oracle that always raises a non-`ClientError` exception. -/
def noUpstream : String → UpstreamOutcome := fun _ => UpstreamOutcome.otherError

/-- Placeholder response used as the default of `runResponse`. -/
def dummyResponse : FeedbackResponse :=
  { success := false, feedback := "", error_code := "", sign := "",
    timestamp := 0, source := "" }

/-- Post-state projection of a `_cache_feedback` outcome. -/
def runCacheState (x : Except String BedrockState) (d : BedrockState) : BedrockState :=
  match x with
  | Except.ok s => s
  | Except.error _ => d

/-- The synthesized fallback `FeedbackResponse` that `get_feedback` builds
on each non-provider path, parameterized by its `success` flag and `source`. -/
def mkFallback (success : Bool) (error_code sign : String) (now : Nat)
    (source : String) : FeedbackResponse :=
  { success := success, feedback := fallbackFor error_code,
    error_code := error_code, sign := sign, timestamp := now, source := source }

/-- The provider response built on the `try` path. -/
def mkProvider (text error_code sign : String) (now : Nat) : FeedbackResponse :=
  { success := true, feedback := text, error_code := error_code, sign := sign,
    timestamp := now, source := "bedrock" }

/-- The broker state after the disabled-upstream call
`get_feedback("a:b", "c")` has cached a result under the key preimage
`"a:b:c"`. -/
def crossState : BedrockState :=
  runState (get_feedback noUpstream baseState "a:b" "c" "u" 10) baseState

/-- A stored response created at time 1. -/
def respT1 : FeedbackResponse :=
  { success := true, feedback := "m1", error_code := "E1", sign := "A",
    timestamp := 1, source := "fallback" }

/-- A stored response created at time 2. -/
def respT2 : FeedbackResponse :=
  { success := true, feedback := "m2", error_code := "E2", sign := "A",
    timestamp := 2, source := "fallback" }

/-- A cache entry stored at time 1. -/
def entryT1 : CacheEntry := { response := respT1, timestamp := 1 }

/-- A cache entry stored at time 2. -/
def entryT2 : CacheEntry := { response := respT2, timestamp := 2 }

/-- A broker at cache capacity: `max_cache_size = 2` with two entries. -/
def atCapState : BedrockState :=
  { baseState with
    max_cache_size := 2,
    cache := [("k1", entryT1), ("k2", entryT2)] }

/-- The response stored in `hitState`, with `cached = false`. -/
def hitResponse : FeedbackResponse :=
  { success := true, feedback := "m", error_code := "THUMB_LOW", sign := "A",
    timestamp := 0, source := "bedrock" }

/-- The cache entry stored in `hitState`. -/
def hitEntry : CacheEntry := { response := hitResponse, timestamp := 0 }

/-- A broker holding one fresh cached entry with `cached = false` for
`("A", "THUMB_LOW")`. -/
def hitState : BedrockState :=
  { baseState with cache := [(generate_cache_key "A" "THUMB_LOW", hitEntry)] }

/-- The broker state after three admitted requests by caller `"u1"`
within the current minute, under ceilings 10/100/3. -/
def quotaState : BedrockState :=
  { baseState with
    request_timestamps := [1, 2, 3],
    hourly_request_timestamps := [1, 2, 3],
    user_request_limits := [("u1", [1, 2, 3])] }

/-- A broker with one stale (older than the minute window) global
timestamp and no tracked callers. -/
def staleState : BedrockState := { baseState with request_timestamps := [0] }

/-- A sequence of `get_feedback` calls, each threaded through the state
(requests are `(sign, error_code, user_id, now)` tuples). -/
def runRequests (upstream : String → UpstreamOutcome) (s : BedrockState) :
    List (String × String × String × Nat) → BedrockState
  | [] => s
  | q :: rest => runRequests upstream
      (runState (get_feedback upstream s q.1 q.2.1 q.2.2.1 q.2.2.2) s) rest

/-! ## Theorems -/

theorem dictGet_dictInsert_self {α : Type} (m : List (String × α)) (k : String) (v : α) :
    dictGet (dictInsert m k v) k = some v := by
  induction m with
  | nil => simp [dictInsert, dictGet]
  | cons p rest ih =>
      by_cases h : p.1 = k
      · simp [dictInsert, dictGet, h]
      · simp [dictInsert, dictGet, h, ih]

theorem dictGet_dictInsert_ne {α : Type} (m : List (String × α)) (k k' : String) (v : α)
    (h : k' ≠ k) : dictGet (dictInsert m k v) k' = dictGet m k' := by
  induction m with
  | nil =>
      have h' : ¬k = k' := fun hh => h hh.symm
      simp [dictInsert, dictGet, h']
  | cons p rest ih =>
      obtain ⟨pk, pv⟩ := p
      have h' : ¬k = k' := fun hh => h hh.symm
      by_cases hp : pk = k
      · subst hp
        simp [dictInsert, dictGet, h']
      · by_cases hp' : pk = k'
        · subst hp'
          simp [dictInsert, dictGet, hp, h]
        · simp [dictInsert, dictGet, hp, hp', ih]

theorem dictInsert_self_of_get {α : Type} (m : List (String × α)) (k : String) (v : α)
    (h : dictGet m k = some v) : dictInsert m k v = m := by
  induction m with
  | nil => simp [dictGet] at h
  | cons p rest ih =>
      obtain ⟨pk, pv⟩ := p
      by_cases hp : pk = k
      · subst hp
        simp [dictGet] at h
        simp [dictInsert, h]
      · simp [dictGet, hp] at h
        simp [dictInsert, hp, ih h]

theorem dictGet_dictDelete_of_none {α : Type} (m : List (String × α)) (k j : String)
    (h : dictGet m k = none) : dictGet (dictDelete m j) k = none := by
  induction m with
  | nil => simp [dictDelete, dictGet]
  | cons p rest ih =>
      by_cases hk : p.1 = k
      · simp [dictGet, hk] at h
      · simp [dictGet, hk] at h
        by_cases hp : p.1 = j
        · simpa [dictDelete, hp] using h
        · simp [dictDelete, dictGet, hp, hk, ih h]

theorem length_dictDelete_of_get {α : Type} (m : List (String × α)) (k : String) (v : α)
    (h : dictGet m k = some v) : (dictDelete m k).length + 1 = m.length := by
  induction m with
  | nil => simp [dictGet] at h
  | cons p rest ih =>
      by_cases hp : p.1 = k
      · simp [dictDelete, hp]
      · simp [dictGet, hp] at h
        simp [dictDelete, hp, ih h]

theorem length_dictInsert_of_none {α : Type} (m : List (String × α)) (k : String) (v : α)
    (h : dictGet m k = none) : (dictInsert m k v).length = m.length + 1 := by
  induction m with
  | nil => simp [dictInsert]
  | cons p rest ih =>
      by_cases hp : p.1 = k
      · simp [dictGet, hp] at h
      · simp [dictGet, hp] at h
        simp [dictInsert, hp, ih h]

theorem dictGet_of_mem {α : Type} (m : List (String × α)) (p : String × α)
    (h : p ∈ m) : ∃ v, dictGet m p.1 = some v := by
  induction m with
  | nil => simp at h
  | cons q rest ih =>
      by_cases hq : q.1 = p.1
      · exact ⟨q.2, by simp [dictGet, hq]⟩
      · rcases List.mem_cons.mp h with h1 | h2
        · rw [h1] at hq
          exact absurd rfl hq
        · obtain ⟨v, hv⟩ := ih h2
          exact ⟨v, by simp [dictGet, hq, hv]⟩

theorem dictGet_mem {α : Type} (m : List (String × α)) (k : String) (v : α)
    (h : dictGet m k = some v) : (k, v) ∈ m := by
  induction m with
  | nil => simp [dictGet] at h
  | cons p rest ih =>
      obtain ⟨pk, pv⟩ := p
      by_cases hp : pk = k
      · subst hp
        simp [dictGet] at h
        simp [h]
      · simp [dictGet, hp] at h
        exact List.mem_cons_of_mem _ (ih h)

theorem oldestEntry_mem (c : List (String × CacheEntry)) (p : String × CacheEntry)
    (h : oldestEntry c = some p) : p ∈ c := by
  induction c generalizing p with
  | nil => simp [oldestEntry] at h
  | cons q rest ih =>
      simp only [oldestEntry] at h
      cases hq : oldestEntry rest with
      | none => rw [hq] at h; simp at h; simp [h]
      | some r =>
          rw [hq] at h
          by_cases hlt : r.2.timestamp < q.2.timestamp
          · simp [hlt] at h
            exact List.mem_cons_of_mem _ (ih _ (h ▸ hq))
          · simp [hlt] at h
            simp [h]

theorem oldestEntry_eq_none (c : List (String × CacheEntry)) :
    oldestEntry c = none ↔ c = [] := by
  cases c with
  | nil => simp [oldestEntry]
  | cons q rest =>
      simp only [oldestEntry]
      cases hr : oldestEntry rest with
      | none => simp
      | some r =>
          by_cases hlt : r.2.timestamp < q.2.timestamp <;> simp [hlt]

theorem oldestEntry_min (c : List (String × CacheEntry)) (p : String × CacheEntry)
    (h : oldestEntry c = some p) :
    ∀ q ∈ c, p.2.timestamp ≤ q.2.timestamp := by
  induction c generalizing p with
  | nil => simp [oldestEntry] at h
  | cons q0 rest ih =>
      intro q hq
      cases hr : oldestEntry rest with
      | none =>
          simp only [oldestEntry, hr, Option.some.injEq] at h
          have hrest : rest = [] := (oldestEntry_eq_none rest).mp hr
          subst hrest
          simp at hq
          rw [← h, hq]
      | some r =>
          simp only [oldestEntry, hr] at h
          have hmin := ih _ hr
          rcases List.mem_cons.mp hq with hq1 | hq2
          · by_cases hlt : r.2.timestamp < q0.2.timestamp
            · rw [if_pos hlt] at h
              injection h with h
              subst h
              subst hq1
              omega
            · rw [if_neg hlt] at h
              injection h with h
              subst h
              subst hq1
              omega
          · have hrq := hmin _ hq2
            by_cases hlt : r.2.timestamp < q0.2.timestamp
            · rw [if_pos hlt] at h
              injection h with h
              subst h
              omega
            · rw [if_neg hlt] at h
              injection h with h
              subst h
              omega

theorem oldestEntry_isSome (c : List (String × CacheEntry)) (h : c ≠ []) :
    ∃ p, oldestEntry c = some p := by
  cases c with
  | nil => exact absurd rfl h
  | cons q rest =>
      simp only [oldestEntry]
      cases hr : oldestEntry rest with
      | none => exact ⟨q, rfl⟩
      | some r =>
          by_cases hlt : r.2.timestamp < q.2.timestamp
          · exact ⟨r, by simp [hlt]⟩
          · exact ⟨q, by simp [hlt]⟩

/-- `_is_rate_limited` only rewrites the three quota windows. -/
theorem is_rate_limited_shape (s : BedrockState) (user_id : String) (now : Nat) :
    ∃ w1 w2 m, (is_rate_limited s user_id now).2 =
      { s with request_timestamps := w1, hourly_request_timestamps := w2,
               user_request_limits := m } := by
  by_cases h1 : s.max_requests_per_minute ≤
      (s.request_timestamps.filter (fun ts => now - ts < 60)).length
  · exact ⟨s.request_timestamps.filter (fun ts => now - ts < 60),
      s.hourly_request_timestamps.filter (fun ts => now - ts < 3600),
      s.user_request_limits, by simp [is_rate_limited, h1]⟩
  · by_cases h2 : s.max_requests_per_hour ≤
        (s.hourly_request_timestamps.filter (fun ts => now - ts < 3600)).length
    · exact ⟨s.request_timestamps.filter (fun ts => now - ts < 60),
        s.hourly_request_timestamps.filter (fun ts => now - ts < 3600),
        s.user_request_limits, by simp [is_rate_limited, h1, h2]⟩
    · by_cases h3 : s.max_requests_per_user_per_minute ≤
          ((((dictGet s.user_request_limits user_id).getD []).filter
            (fun ts => now - ts < 60)).length)
      · exact ⟨s.request_timestamps.filter (fun ts => now - ts < 60),
          s.hourly_request_timestamps.filter (fun ts => now - ts < 3600),
          dictInsert s.user_request_limits user_id
            (((dictGet s.user_request_limits user_id).getD []).filter
              (fun ts => now - ts < 60)),
          by simp [is_rate_limited, h1, h2, h3]⟩
      · exact ⟨s.request_timestamps.filter (fun ts => now - ts < 60),
          s.hourly_request_timestamps.filter (fun ts => now - ts < 3600),
          dictInsert s.user_request_limits user_id
            (((dictGet s.user_request_limits user_id).getD []).filter
              (fun ts => now - ts < 60)),
          by simp [is_rate_limited, h1, h2, h3]⟩

/-- A denial reason is one of the three tier strings. -/
theorem is_rate_limited_reason (s : BedrockState) (user_id : String) (now : Nat)
    (h : (is_rate_limited s user_id now).1.1 = true) :
    (is_rate_limited s user_id now).1.2 = "global_minute_limit" ∨
    (is_rate_limited s user_id now).1.2 = "global_hour_limit" ∨
    (is_rate_limited s user_id now).1.2 = "user_minute_limit" := by
  unfold is_rate_limited at h ⊢
  by_cases h1 : s.max_requests_per_minute ≤
      (s.request_timestamps.filter (fun ts => now - ts < 60)).length
  · simp [h1]
  · by_cases h2 : s.max_requests_per_hour ≤
        (s.hourly_request_timestamps.filter (fun ts => now - ts < 3600)).length
    · simp [h1, h2]
    · by_cases h3 : s.max_requests_per_user_per_minute ≤
          ((((dictGet s.user_request_limits user_id).getD []).filter
            (fun ts => now - ts < 60)).length)
      · simp [h1, h2, h3]
      · simp [h1, h2, h3] at h

/-- The global windows after `_is_rate_limited`: always the pruned lists. -/
theorem is_rate_limited_globals (s : BedrockState) (user_id : String) (now : Nat) :
    ((is_rate_limited s user_id now).2).request_timestamps =
      s.request_timestamps.filter (fun ts => now - ts < 60) ∧
    ((is_rate_limited s user_id now).2).hourly_request_timestamps =
      s.hourly_request_timestamps.filter (fun ts => now - ts < 3600) := by
  unfold is_rate_limited
  by_cases h1 : s.max_requests_per_minute ≤
      (s.request_timestamps.filter (fun ts => now - ts < 60)).length
  · simp [h1]
  · by_cases h2 : s.max_requests_per_hour ≤
        (s.hourly_request_timestamps.filter (fun ts => now - ts < 3600)).length
    · simp [h1, h2]
    · by_cases h3 : s.max_requests_per_user_per_minute ≤
          ((((dictGet s.user_request_limits user_id).getD []).filter
            (fun ts => now - ts < 60)).length)
      · simp [h1, h2, h3]
      · simp [h1, h2, h3]

/-- The caller map after `_is_rate_limited`: untouched when a global tier
denies, otherwise the caller's window is replaced by its pruned version. -/
theorem is_rate_limited_user_map (s : BedrockState) (user_id : String) (now : Nat) :
    ((is_rate_limited s user_id now).2).user_request_limits = s.user_request_limits ∨
    ((is_rate_limited s user_id now).2).user_request_limits =
      dictInsert s.user_request_limits user_id
        (((dictGet s.user_request_limits user_id).getD []).filter
          (fun ts => now - ts < 60)) := by
  unfold is_rate_limited
  by_cases h1 : s.max_requests_per_minute ≤
      (s.request_timestamps.filter (fun ts => now - ts < 60)).length
  · left
    simp [h1]
  · by_cases h2 : s.max_requests_per_hour ≤
        (s.hourly_request_timestamps.filter (fun ts => now - ts < 3600)).length
    · left
      simp [h1, h2]
    · by_cases h3 : s.max_requests_per_user_per_minute ≤
          ((((dictGet s.user_request_limits user_id).getD []).filter
            (fun ts => now - ts < 60)).length)
      · right
        simp [h1, h2, h3]
      · right
        simp [h1, h2, h3]

/-- On an admitted request the user stage was reached, so the caller's
window was created/pruned in the map. -/
theorem is_rate_limited_admitted_user_map (s : BedrockState) (user_id : String) (now : Nat)
    (h : (is_rate_limited s user_id now).1.1 = false) :
    ((is_rate_limited s user_id now).2).user_request_limits =
      dictInsert s.user_request_limits user_id
        (((dictGet s.user_request_limits user_id).getD []).filter
          (fun ts => now - ts < 60)) := by
  unfold is_rate_limited at h ⊢
  by_cases h1 : s.max_requests_per_minute ≤
      (s.request_timestamps.filter (fun ts => now - ts < 60)).length
  · simp [h1] at h
  · by_cases h2 : s.max_requests_per_hour ≤
        (s.hourly_request_timestamps.filter (fun ts => now - ts < 3600)).length
    · simp [h1, h2] at h
    · by_cases h3 : s.max_requests_per_user_per_minute ≤
          ((((dictGet s.user_request_limits user_id).getD []).filter
            (fun ts => now - ts < 60)).length)
      · simp [h1, h2, h3] at h
      · simp [h1, h2, h3]

/-- After a successful cache write the written key maps to the fresh
entry stamped with the insertion time. -/
theorem cache_feedback_ok_get (s s' : BedrockState) (k : String)
    (r : FeedbackResponse) (now : Nat) (h : cache_feedback s k r now = Except.ok s') :
    dictGet s'.cache k = some ({ response := r, timestamp := now }) := by
  unfold cache_feedback at h
  by_cases hc : s.max_cache_size ≤ s.cache.length
  · rw [if_pos hc] at h
    cases hp : oldestEntry s.cache with
    | none => rw [hp] at h; simp at h
    | some p =>
        rw [hp] at h
        simp at h
        rw [← h]
        exact dictGet_dictInsert_self _ _ _
  · rw [if_neg hc] at h
    simp at h
    rw [← h]
    exact dictGet_dictInsert_self _ _ _

/-- On a state whose relevant windows are already pruned and whose caller
is already tracked with a pruned window, `_is_rate_limited` leaves the
state unchanged. -/
theorem is_rate_limited_pruned_fixed (s : BedrockState) (user_id : String) (now : Nat)
    (uw : List Nat)
    (h1 : s.request_timestamps.filter (fun ts => now - ts < 60) = s.request_timestamps)
    (h2 : s.hourly_request_timestamps.filter (fun ts => now - ts < 3600)
      = s.hourly_request_timestamps)
    (hu : dictGet s.user_request_limits user_id = some uw)
    (h3 : uw.filter (fun ts => now - ts < 60) = uw) :
    (is_rate_limited s user_id now).2 = s := by
  unfold is_rate_limited
  by_cases b1 : s.max_requests_per_minute ≤ s.request_timestamps.length
  · simp [b1, h1, h2]
  · by_cases b2 : s.max_requests_per_hour ≤ s.hourly_request_timestamps.length
    · simp [b1, b2, h1, h2]
    · by_cases b3 : s.max_requests_per_user_per_minute ≤ uw.length
      · simp [b1, b2, b3, h1, h2, hu, h3, dictInsert_self_of_get _ _ _ hu]
      · simp [b1, b2, b3, h1, h2, hu, h3, dictInsert_self_of_get _ _ _ hu]

/-- A cache write raising `ValueError`: at zero capacity over an empty cache. -/
theorem cache_feedback_error_of_empty (s : BedrockState) (k : String)
    (r : FeedbackResponse) (now : Nat) (h1 : s.cache = []) (h2 : s.max_cache_size = 0) :
    cache_feedback s k r now = Except.error "ValueError: min() arg is an empty sequence" := by
  simp [cache_feedback, h1, h2, oldestEntry]

/-- With capacity at least one, `_cache_feedback` always succeeds. -/
theorem cache_feedback_ok_of_pos (s : BedrockState) (k : String)
    (r : FeedbackResponse) (now : Nat) (h : 1 ≤ s.max_cache_size) :
    ∃ s', cache_feedback s k r now = Except.ok s' := by
  by_cases hc : s.max_cache_size ≤ s.cache.length
  · have hne : s.cache ≠ [] := by
      intro h0
      rw [h0] at hc
      simp at hc
      omega
    obtain ⟨p, hp⟩ := oldestEntry_isSome _ hne
    exact ⟨{ s with cache := (dictInsert (dictDelete s.cache p.1) k { response := r, timestamp := now }) }, by simp [cache_feedback, hc, hp]⟩
  · exact ⟨{ s with cache := (dictInsert s.cache k { response := r, timestamp := now }) }, by simp [cache_feedback, hc]⟩

/-- A successful cache write only rewrites the cache field. -/
theorem cache_feedback_ok_shape (s s' : BedrockState) (k : String)
    (r : FeedbackResponse) (now : Nat) (h : cache_feedback s k r now = Except.ok s') :
    ∃ c, s' = { s with cache := c } := by
  unfold cache_feedback at h
  by_cases hc : s.max_cache_size ≤ s.cache.length
  · rw [if_pos hc] at h
    cases hp : oldestEntry s.cache with
    | none => rw [hp] at h; simp at h
    | some p =>
        rw [hp] at h
        simp at h
        exact ⟨_, h.symm⟩
  · rw [if_neg hc] at h
    simp at h
    exact ⟨_, h.symm⟩

/-- A cache lookup only rewrites the cache field. -/
theorem get_cached_feedback_shape (s : BedrockState) (k : String) (now : Nat) :
    ∃ c, (get_cached_feedback s k now).2 = { s with cache := c } := by
  cases h : dictGet s.cache k with
  | none => exact ⟨s.cache, by simp [get_cached_feedback, h]⟩
  | some e =>
      by_cases ht : s.cache_ttl_seconds < now - e.timestamp
      · exact ⟨dictDelete s.cache k, by simp [get_cached_feedback, h, ht]⟩
      · exact ⟨dictInsert s.cache k
          ({ e with response := { e.response with cached := true } }),
          by simp [get_cached_feedback, h, ht]⟩

/-- A cache-lookup hit returns the stored response with `cached := true`. -/
theorem get_cached_feedback_hit_inv (s : BedrockState) (k : String) (now : Nat)
    (r : FeedbackResponse) (h : (get_cached_feedback s k now).1 = some r) :
    ∃ e, dictGet s.cache k = some e ∧ r = { e.response with cached := true } := by
  unfold get_cached_feedback at h
  cases he : dictGet s.cache k with
  | none =>
      simp only [he] at h
      exact Option.noConfusion h
  | some e =>
      simp only [he] at h
      by_cases ht : s.cache_ttl_seconds < now - e.timestamp
      · rw [if_pos ht] at h
        simp at h
      · rw [if_neg ht] at h
        simp at h
        exact ⟨e, rfl, h.symm⟩

/-- The capacity configuration survives the lookup and the quota check. -/
theorem post_lookup_max (s : BedrockState) (k user_id : String) (now : Nat) :
    (is_rate_limited (get_cached_feedback s k now).2 user_id now).2.max_cache_size
      = s.max_cache_size := by
  obtain ⟨c1, hc1⟩ := get_cached_feedback_shape s k now
  obtain ⟨w1, w2, m, hsh⟩ := is_rate_limited_shape (get_cached_feedback s k now).2 user_id now
  rw [hsh]
  show (get_cached_feedback s k now).2.max_cache_size = s.max_cache_size
  rw [hc1]

/-- The statistics survive the lookup and the quota check. -/
theorem post_lookup_stats (s : BedrockState) (k user_id : String) (now : Nat) :
    (is_rate_limited (get_cached_feedback s k now).2 user_id now).2.request_stats
      = s.request_stats := by
  obtain ⟨c1, hc1⟩ := get_cached_feedback_shape s k now
  obtain ⟨w1, w2, m, hsh⟩ := is_rate_limited_shape (get_cached_feedback s k now).2 user_id now
  rw [hsh]
  show (get_cached_feedback s k now).2.request_stats = s.request_stats
  rw [hc1]

/-- Every stored fallback message is non-empty, as is the generic default. -/
theorem fallbackFor_ne_empty (error_code : String) : fallbackFor error_code ≠ "" := by
  unfold fallbackFor
  cases h : dictGet fallback_messages error_code with
  | none => simp [h]
  | some v =>
      have hm := dictGet_mem _ _ _ h
      have hall : ∀ p ∈ fallback_messages, p.2 ≠ "" := by decide
      simpa using hall _ hm

/-- Cache-hit path of `get_feedback`. -/
theorem get_feedback_hit (upstream : String → UpstreamOutcome) (s : BedrockState)
    (sign error_code user_id : String) (now : Nat) (r : FeedbackResponse)
    (hhit : (get_cached_feedback s (generate_cache_key sign error_code) now).1 = some r) :
    get_feedback upstream s sign error_code user_id now =
      Except.ok (r, incCached (get_cached_feedback s (generate_cache_key sign error_code) now).2) := by
  unfold get_feedback
  cases hgc : get_cached_feedback s (generate_cache_key sign error_code) now with
  | mk o s1 =>
      rw [hgc] at hhit
      simp only at hhit
      subst hhit
      simp [hgc]

/-- Quota-denied path of `get_feedback`. -/
theorem get_feedback_denied (upstream : String → UpstreamOutcome) (s : BedrockState)
    (sign error_code user_id : String) (now : Nat)
    (hmiss : (get_cached_feedback s (generate_cache_key sign error_code) now).1 = none)
    (hden : (is_rate_limited (get_cached_feedback s (generate_cache_key sign error_code) now).2
      user_id now).1.1 = true) :
    get_feedback upstream s sign error_code user_id now =
      Except.map (fun s4 => (mkFallback true error_code sign now
          ("fallback_rate_limited_" ++
            (is_rate_limited (get_cached_feedback s (generate_cache_key sign error_code) now).2
              user_id now).1.2), s4))
        (cache_feedback
          (incRateLimited
            (is_rate_limited (get_cached_feedback s (generate_cache_key sign error_code) now).2
              user_id now).2)
          (generate_cache_key sign error_code)
          (mkFallback true error_code sign now
            ("fallback_rate_limited_" ++
              (is_rate_limited (get_cached_feedback s (generate_cache_key sign error_code) now).2
                user_id now).1.2)) now) := by
  unfold get_feedback
  cases hgc : get_cached_feedback s (generate_cache_key sign error_code) now with
  | mk o s1 =>
      rw [hgc] at hmiss hden
      simp only at hmiss
      subst hmiss
      cases hrl : is_rate_limited s1 user_id now with
      | mk res s2 =>
          rw [hrl] at hden
          obtain ⟨b, reason⟩ := res
          simp only at hden
          subst hden
          simp [hrl, mkFallback]

/-- Disabled-upstream path of `get_feedback`. -/
theorem get_feedback_disabled (upstream : String → UpstreamOutcome) (s : BedrockState)
    (sign error_code user_id : String) (now : Nat)
    (hmiss : (get_cached_feedback s (generate_cache_key sign error_code) now).1 = none)
    (hadm : (is_rate_limited (get_cached_feedback s (generate_cache_key sign error_code) now).2
      user_id now).1.1 = false)
    (hdis : s.enabled = false ∨ s.client = false) :
    get_feedback upstream s sign error_code user_id now =
      Except.map (fun s4 => (mkFallback true error_code sign now "fallback", s4))
        (cache_feedback
          (incFallback (add_request_timestamp
            (is_rate_limited (get_cached_feedback s (generate_cache_key sign error_code) now).2
              user_id now).2 user_id now))
          (generate_cache_key sign error_code)
          (mkFallback true error_code sign now "fallback") now) := by
  obtain ⟨c1, hc1⟩ := get_cached_feedback_shape s (generate_cache_key sign error_code) now
  obtain ⟨w1, w2, m, hshape⟩ := is_rate_limited_shape
    (get_cached_feedback s (generate_cache_key sign error_code) now).2 user_id now
  unfold get_feedback
  cases hgc : get_cached_feedback s (generate_cache_key sign error_code) now with
  | mk o s1 =>
      rw [hgc] at hmiss hadm hc1 hshape
      simp only at hmiss hc1 hshape
      subst hmiss
      cases hrl : is_rate_limited s1 user_id now with
      | mk res s2 =>
          rw [hrl] at hadm hshape
          obtain ⟨b, reason⟩ := res
          simp only at hadm hshape
          subst hadm
          have hdis3 : (add_request_timestamp s2 user_id now).enabled = false ∨
              (add_request_timestamp s2 user_id now).client = false := by
            rcases hdis with h | h
            · left
              simp [add_request_timestamp, hshape, hc1, h]
            · right
              simp [add_request_timestamp, hshape, hc1, h]
          simp [hrl, hdis3, mkFallback]

/-- Enabled-and-admitted path of `get_feedback`: the upstream outcome
decides among the provider success, `ClientError` and generic exception
branches (the latter also covering a cache-write failure of the success
branch). -/
theorem get_feedback_provider (upstream : String → UpstreamOutcome) (s : BedrockState)
    (sign error_code user_id : String) (now : Nat)
    (hmiss : (get_cached_feedback s (generate_cache_key sign error_code) now).1 = none)
    (hadm : (is_rate_limited (get_cached_feedback s (generate_cache_key sign error_code) now).2
      user_id now).1.1 = false)
    (hen : s.enabled = true) (hcl : s.client = true) :
    get_feedback upstream s sign error_code user_id now =
      (let s3 := add_request_timestamp
        (is_rate_limited (get_cached_feedback s (generate_cache_key sign error_code) now).2
          user_id now).2 user_id now
       match upstream (create_prompt sign error_code) with
       | UpstreamOutcome.ok text =>
           (match cache_feedback (incBedrock s3) (generate_cache_key sign error_code)
               (mkProvider text error_code sign now) now with
            | Except.ok s5 => Except.ok (mkProvider text error_code sign now, s5)
            | Except.error _ =>
                Except.map (fun s6 =>
                    (mkFallback false error_code sign now "fallback_unexpected_error", s6))
                  (cache_feedback (incFallback (incBedrock s3))
                    (generate_cache_key sign error_code)
                    (mkFallback false error_code sign now "fallback_unexpected_error") now))
       | UpstreamOutcome.clientError =>
           Except.map (fun s4 =>
               (mkFallback false error_code sign now "fallback_bedrock_error", s4))
             (cache_feedback (incFallback s3) (generate_cache_key sign error_code)
               (mkFallback false error_code sign now "fallback_bedrock_error") now)
       | UpstreamOutcome.otherError =>
           Except.map (fun s4 =>
               (mkFallback false error_code sign now "fallback_unexpected_error", s4))
             (cache_feedback (incFallback s3) (generate_cache_key sign error_code)
               (mkFallback false error_code sign now "fallback_unexpected_error") now)) := by
  obtain ⟨c1, hc1⟩ := get_cached_feedback_shape s (generate_cache_key sign error_code) now
  obtain ⟨w1, w2, m, hshape⟩ := is_rate_limited_shape
    (get_cached_feedback s (generate_cache_key sign error_code) now).2 user_id now
  unfold get_feedback
  cases hgc : get_cached_feedback s (generate_cache_key sign error_code) now with
  | mk o s1 =>
      rw [hgc] at hmiss hadm hc1 hshape
      simp only at hmiss hc1
      subst hmiss
      cases hrl : is_rate_limited s1 user_id now with
      | mk res s2 =>
          rw [hrl] at hadm hshape
          obtain ⟨b, reason⟩ := res
          simp only at hadm hshape
          subst hadm
          have hdis3 : ¬((add_request_timestamp s2 user_id now).enabled = false ∨
              (add_request_timestamp s2 user_id now).client = false) := by
            rw [not_or]
            constructor
            · simp [add_request_timestamp, hshape, hc1, hen]
            · simp [add_request_timestamp, hshape, hc1, hcl]
          simp only [hrl]
          simp only [if_neg hdis3]
          cases hup : upstream (create_prompt sign error_code) with
          | ok text => simp [hup, mkProvider, mkFallback]
          | clientError => simp [hup, mkFallback]
          | otherError => simp [hup, mkFallback]

/-- C6: the admission check prunes each window, then compares each
window's length against its ceiling in the fixed priority order
global-per-minute, global-per-hour, per-caller-per-minute, returning the
first violated tier as the reason (so simultaneous violations report the
highest-priority tier) and admitting when none is violated: the code's
`_is_rate_limited` decision coincides with that specification on every
state, caller and clock. -/
theorem admission_matches_spec_priority (s : BedrockState) (user_id : String) (now : Nat) :
    (is_rate_limited s user_id now).1 = admit_spec s user_id now := by
  unfold is_rate_limited admit_spec
  by_cases h1 : s.max_requests_per_minute ≤
      (s.request_timestamps.filter (fun ts => now - ts < 60)).length
  · simp [h1]
  · by_cases h2 : s.max_requests_per_hour ≤
        (s.hourly_request_timestamps.filter (fun ts => now - ts < 3600)).length
    · simp [h1, h2]
    · by_cases h3 : s.max_requests_per_user_per_minute ≤
          ((((dictGet s.user_request_limits user_id).getD []).filter
            (fun ts => now - ts < 60)).length)
      · simp [h1, h2, h3]
      · simp [h1, h2, h3]

/-- C8: the cache key is a hash of `"target:errorCode"`, so it is not
injective over the pair: the distinct pairs `("a:b", "c")` and
`("a", "b:c")` produce the same key (in general any split of the same
colon-joined string does), and a result cached for the first pair is
served as a cache hit for the second: the follow-up request returns
`cached = true`, carries the stored `error_code = "c"`, and bumps only the
cache-hit counter. -/
theorem cache_key_not_injective :
    (∀ a b c : String,
      generate_cache_key (a ++ ":" ++ b) c = generate_cache_key a (b ++ ":" ++ c)) ∧
    generate_cache_key "a:b" "c" = generate_cache_key "a" "b:c" ∧
    ("a:b", "c") ≠ (("a", "b:c") : String × String) ∧
    (runResponse (get_feedback noUpstream crossState "a" "b:c" "u" 20) dummyResponse).cached
      = true ∧
    (runResponse (get_feedback noUpstream crossState "a" "b:c" "u" 20) dummyResponse).error_code
      = "c" ∧
    (runState (get_feedback noUpstream crossState "a" "b:c" "u" 20)
      crossState).request_stats.cached_requests = 1 := by
  refine ⟨?_, by decide, by decide, by decide, by decide, by decide⟩
  intro a b c
  simp [generate_cache_key, String.append_assoc]

/-- C10: totality of `get_feedback` hinges on `max_cache_size ≥ 1`.  With
`max_cache_size = 0` a cache write against the empty cache takes the
eviction branch, evaluates `min` over an empty key set and raises — so
every cache-miss request raises; with capacity at least one the eviction
branch only runs over a non-empty cache and the write always succeeds. -/
theorem cache_write_requires_capacity (upstream : String → UpstreamOutcome)
    (s : BedrockState) (k sign error_code user_id : String)
    (r : FeedbackResponse) (now : Nat) :
    (s.max_cache_size = 0 → s.cache = [] →
      (∃ e, cache_feedback s k r now = Except.error e) ∧
      (∃ e, get_feedback upstream s sign error_code user_id now = Except.error e)) ∧
    (1 ≤ s.max_cache_size → ∃ s', cache_feedback s k r now = Except.ok s') := by
  constructor
  · intro hmax hcache
    refine ⟨⟨_, cache_feedback_error_of_empty s k r now hcache hmax⟩, ?_⟩
    have hmiss : get_cached_feedback s (generate_cache_key sign error_code) now
        = (none, s) := by
      simp [get_cached_feedback, hcache, dictGet]
    obtain ⟨w1, w2, m, hshape⟩ := is_rate_limited_shape s user_id now
    have hmiss1 : (get_cached_feedback s (generate_cache_key sign error_code) now).1
        = none := by rw [hmiss]
    have hs2cache : ((is_rate_limited s user_id now).2).cache = [] := by
      rw [hshape]
      exact hcache
    have hs2max : ((is_rate_limited s user_id now).2).max_cache_size = 0 := by
      rw [hshape]
      exact hmax
    cases hb : (is_rate_limited (get_cached_feedback s
        (generate_cache_key sign error_code) now).2 user_id now).1.1 with
    | true =>
        rw [get_feedback_denied upstream s sign error_code user_id now hmiss1 hb]
        rw [cache_feedback_error_of_empty _ _ _ _
          (by rw [hmiss]; simpa [incRateLimited] using hs2cache)
          (by rw [hmiss]; simpa [incRateLimited] using hs2max)]
        exact ⟨_, rfl⟩
    | false =>
        have hartcache : ∀ u' t', ((add_request_timestamp
            ((is_rate_limited s user_id now).2) u' t')).cache = [] := by
          intro u' t'
          simpa [add_request_timestamp] using hs2cache
        have hartmax : ∀ u' t', ((add_request_timestamp
            ((is_rate_limited s user_id now).2) u' t')).max_cache_size = 0 := by
          intro u' t'
          simpa [add_request_timestamp] using hs2max
        by_cases hdis : s.enabled = false ∨ s.client = false
        · rw [get_feedback_disabled upstream s sign error_code user_id now hmiss1 hb hdis]
          rw [cache_feedback_error_of_empty _ _ _ _
            (by rw [hmiss]; simpa [incFallback] using hartcache user_id now)
            (by rw [hmiss]; simpa [incFallback] using hartmax user_id now)]
          exact ⟨_, rfl⟩
        · rw [not_or] at hdis
          obtain ⟨hen, hcl⟩ := hdis
          rw [Bool.not_eq_false] at hen hcl
          rw [get_feedback_provider upstream s sign error_code user_id now hmiss1 hb hen hcl]
          cases hup : upstream (create_prompt sign error_code) with
          | ok text =>
              simp only [hup]
              rw [cache_feedback_error_of_empty _ _ _ _
                (by rw [hmiss]; simpa [incBedrock] using hartcache user_id now)
                (by rw [hmiss]; simpa [incBedrock] using hartmax user_id now)]
              rw [cache_feedback_error_of_empty _ _ _ _
                (by rw [hmiss]; simpa [incFallback, incBedrock] using hartcache user_id now)
                (by rw [hmiss]; simpa [incFallback, incBedrock] using hartmax user_id now)]
              exact ⟨_, rfl⟩
          | clientError =>
              simp only [hup]
              rw [cache_feedback_error_of_empty _ _ _ _
                (by rw [hmiss]; simpa [incFallback] using hartcache user_id now)
                (by rw [hmiss]; simpa [incFallback] using hartmax user_id now)]
              exact ⟨_, rfl⟩
          | otherError =>
              simp only [hup]
              rw [cache_feedback_error_of_empty _ _ _ _
                (by rw [hmiss]; simpa [incFallback] using hartcache user_id now)
                (by rw [hmiss]; simpa [incFallback] using hartmax user_id now)]
              exact ⟨_, rfl⟩
  · intro h
    exact cache_feedback_ok_of_pos s k r now h

/-- Witness for C10 at a concrete zero-capacity state and a concrete
unit-capacity state. -/
theorem cache_write_requires_capacity_witness :
    ((∃ e, cache_feedback ({ baseState with max_cache_size := 0 }) "k"
        dummyResponse 5 = Except.error e) ∧
      (∃ e, get_feedback noUpstream ({ baseState with max_cache_size := 0 })
        "A" "THUMB_LOW" "u" 5 = Except.error e)) ∧
    (∃ s', cache_feedback ({ baseState with max_cache_size := 1 }) "k"
      dummyResponse 5 = Except.ok s') :=
  ⟨(cache_write_requires_capacity noUpstream ({ baseState with max_cache_size := 0 })
      "k" "A" "THUMB_LOW" "u" dummyResponse 5).1 (by decide) (by decide),
   (cache_write_requires_capacity noUpstream ({ baseState with max_cache_size := 1 })
      "k" "A" "THUMB_LOW" "u" dummyResponse 5).2 (by decide)⟩

/-- Counterexample to C4: a `put` whose key `"k2"` is already present in a
cache at capacity still evicts the other (oldest) entry `"k1"`, and the
size drops to 1 below `maxSize = 2` — the code's eviction branch does not
test whether the key is new. -/
theorem cache_put_existing_key_evicts :
    dictGet atCapState.cache "k2" = some entryT2 ∧
    atCapState.cache.length = atCapState.max_cache_size ∧
    dictGet (runCacheState (cache_feedback atCapState "k2" dummyResponse 9)
      atCapState).cache "k1" = none ∧
    (runCacheState (cache_feedback atCapState "k2" dummyResponse 9)
      atCapState).cache.length = 1 := by
  decide

/-- C4 amended: a cache write against a cache at (or beyond) capacity
always evicts exactly the entry with the smallest stored `createdAt`
(earliest-inserted on ties) — never a newer one — regardless of whether
the key being inserted is new; when the key is new and the cache held
exactly `maxSize` entries, the size stays at `maxSize`.  (A put whose key
is already present also evicts, dropping the size below `maxSize`; see the
counterexample.) -/
theorem cache_put_evicts_oldest (s : BedrockState) (k : String)
    (r : FeedbackResponse) (now : Nat)
    (hcap : s.max_cache_size ≤ s.cache.length) (hne : s.cache ≠ []) :
    ∃ p, oldestEntry s.cache = some p ∧ p ∈ s.cache ∧
      (∀ q ∈ s.cache, p.2.timestamp ≤ q.2.timestamp) ∧
      cache_feedback s k r now = Except.ok ({ s with
        cache := (dictInsert (dictDelete s.cache p.1) k
          { response := r, timestamp := now }) }) ∧
      (dictGet s.cache k = none → s.cache.length = s.max_cache_size →
        (dictInsert (dictDelete s.cache p.1) k
          ({ response := r, timestamp := now } : CacheEntry)).length
            = s.max_cache_size) := by
  obtain ⟨p, hp⟩ := oldestEntry_isSome _ hne
  refine ⟨p, hp, oldestEntry_mem _ _ hp, oldestEntry_min _ _ hp, ?_, ?_⟩
  · simp [cache_feedback, hcap, hp]
  · intro hknone hlen
    obtain ⟨v', hv'⟩ := dictGet_of_mem _ _ (oldestEntry_mem _ _ hp)
    have hdel := length_dictDelete_of_get _ _ _ hv'
    have hkdel : dictGet (dictDelete s.cache p.1) k = none :=
      dictGet_dictDelete_of_none _ _ _ hknone
    rw [length_dictInsert_of_none _ _ _ hkdel]
    omega

/-- Witness for the amended C4 at the concrete at-capacity state and the
new key `"k3"`. -/
theorem cache_put_evicts_oldest_witness :
    ∃ p, oldestEntry atCapState.cache = some p ∧ p ∈ atCapState.cache ∧
      (∀ q ∈ atCapState.cache, p.2.timestamp ≤ q.2.timestamp) ∧
      cache_feedback atCapState "k3" dummyResponse 9 = Except.ok ({ atCapState with
        cache := (dictInsert (dictDelete atCapState.cache p.1) "k3"
          { response := dummyResponse, timestamp := 9 }) }) ∧
      (dictGet atCapState.cache "k3" = none →
        atCapState.cache.length = atCapState.max_cache_size →
        (dictInsert (dictDelete atCapState.cache p.1) "k3"
          ({ response := dummyResponse, timestamp := 9 } : CacheEntry)).length
            = atCapState.max_cache_size) :=
  cache_put_evicts_oldest atCapState "k3" dummyResponse 9 (by decide) (by decide)

/-- Counterexample to C1: before the lookup the stored record's `cached`
flag is `false`; after the cache-hit call it is `true` — the hit mutates
the stored record in place (the returned response aliases it) instead of
flagging only a copy. -/
theorem cache_hit_mutates_stored_record :
    (dictGet hitState.cache (generate_cache_key "A" "THUMB_LOW")).map
      (fun e => e.response.cached) = some false ∧
    runOk (get_feedback noUpstream hitState "A" "THUMB_LOW" "u" 5) = true ∧
    (dictGet (runState (get_feedback noUpstream hitState "A" "THUMB_LOW" "u" 5)
        hitState).cache (generate_cache_key "A" "THUMB_LOW")).map
      (fun e => e.response.cached) = some true := by
  decide

/-- C1 amended: on every cache hit `get_feedback` returns the stored
response with `cached := true` and bumps only the cache-hit counter; the
stored record's message and origin are untouched, but because the returned
object aliases the stored one, the stored entry's `cached` provenance flag
is rewritten to `true` in place. -/
theorem cache_hit_returns_aliased_record (upstream : String → UpstreamOutcome)
    (s : BedrockState) (sign error_code user_id : String) (now : Nat) (e : CacheEntry)
    (he : dictGet s.cache (generate_cache_key sign error_code) = some e)
    (hfresh : ¬ s.cache_ttl_seconds < now - e.timestamp) :
    get_feedback upstream s sign error_code user_id now =
      Except.ok ({ e.response with cached := true },
        incCached ({ s with cache := (dictInsert s.cache
          (generate_cache_key sign error_code)
          { e with response := { e.response with cached := true } }) })) := by
  have h1 : (get_cached_feedback s (generate_cache_key sign error_code) now).1
      = some ({ e.response with cached := true }) := by
    simp [get_cached_feedback, he, hfresh]
  rw [get_feedback_hit upstream s sign error_code user_id now _ h1]
  congr 1
  simp [get_cached_feedback, he, hfresh]

/-- C2: every request denied by the quota check yields a successful
(`succeeded = true`) fallback result whose origin is the quota origin
matching the denial reason (`fallback_quota_<reason>` in the spec's enum,
rendered by the code as `fallback_rate_limited_<reason>`), carrying the
catalog fallback message; the result is written to the cache under the
request's key and the quota-rejected statistic is incremented while the
total counter is untouched. -/
theorem quota_denied_graceful_fallback (upstream : String → UpstreamOutcome)
    (s : BedrockState) (sign error_code user_id : String) (now : Nat)
    (hmiss : (get_cached_feedback s (generate_cache_key sign error_code) now).1 = none)
    (hden : (is_rate_limited (get_cached_feedback s (generate_cache_key sign error_code) now).2
      user_id now).1.1 = true)
    (hmax : 1 ≤ s.max_cache_size) :
    ∃ r s', get_feedback upstream s sign error_code user_id now = Except.ok (r, s') ∧
      r.success = true ∧
      r.feedback = fallbackFor error_code ∧
      (originOf r.source = Origin.fallback_quota_global_minute ∨
       originOf r.source = Origin.fallback_quota_global_hour ∨
       originOf r.source = Origin.fallback_quota_user_minute) ∧
      reasonString (originOf r.source) =
        (is_rate_limited (get_cached_feedback s (generate_cache_key sign error_code) now).2
          user_id now).1.2 ∧
      dictGet s'.cache (generate_cache_key sign error_code) =
        some ({ response := r, timestamp := now }) ∧
      s'.request_stats.rate_limited_requests =
        s.request_stats.rate_limited_requests + 1 ∧
      s'.request_stats.total_requests = s.request_stats.total_requests := by
  obtain ⟨c1, hc1⟩ := get_cached_feedback_shape s (generate_cache_key sign error_code) now
  obtain ⟨w1, w2, m, hshape⟩ := is_rate_limited_shape
    (get_cached_feedback s (generate_cache_key sign error_code) now).2 user_id now
  have hmax2 : 1 ≤ (incRateLimited
      (is_rate_limited (get_cached_feedback s (generate_cache_key sign error_code) now).2
        user_id now).2).max_cache_size := by
    show 1 ≤ (is_rate_limited (get_cached_feedback s
      (generate_cache_key sign error_code) now).2 user_id now).2.max_cache_size
    rw [hshape]
    show 1 ≤ (get_cached_feedback s (generate_cache_key sign error_code) now).2.max_cache_size
    rw [hc1]
    exact hmax
  obtain ⟨s4, hok⟩ := cache_feedback_ok_of_pos _ (generate_cache_key sign error_code)
    (mkFallback true error_code sign now
      ("fallback_rate_limited_" ++
        (is_rate_limited (get_cached_feedback s (generate_cache_key sign error_code) now).2
          user_id now).1.2)) now hmax2
  have hstats : (is_rate_limited (get_cached_feedback s
      (generate_cache_key sign error_code) now).2 user_id now).2.request_stats
        = s.request_stats := by
    rw [hshape]
    show (get_cached_feedback s
      (generate_cache_key sign error_code) now).2.request_stats = s.request_stats
    rw [hc1]
  rw [get_feedback_denied upstream s sign error_code user_id now hmiss hden, hok]
  refine ⟨_, s4, rfl, rfl, rfl, ?_, ?_, cache_feedback_ok_get _ _ _ _ _ hok, ?_, ?_⟩
  · rcases is_rate_limited_reason _ _ _ hden with h | h | h <;> rw [mkFallback, h]
    · left
      rfl
    · right
      left
      rfl
    · right
      right
      rfl
  · rcases is_rate_limited_reason _ _ _ hden with h | h | h <;> rw [mkFallback, h] <;> rfl
  · obtain ⟨c4, hc4⟩ := cache_feedback_ok_shape _ _ _ _ _ hok
    rw [hc4]
    simp [incRateLimited, hstats]
  · obtain ⟨c4, hc4⟩ := cache_feedback_ok_shape _ _ _ _ _ hok
    rw [hc4]
    simp [incRateLimited, hstats]

/-- Witness for C2: the fourth distinct-code request by `"u1"` within the
minute is denied at the per-user tier and reports the
`fallback_quota_user_minute` origin. -/
theorem quota_denied_graceful_fallback_witness :
    ∃ r s', get_feedback noUpstream quotaState "A" "WRIST_BEND" "u1" 30 =
        Except.ok (r, s') ∧
      r.success = true ∧
      r.feedback = fallbackFor "WRIST_BEND" ∧
      (originOf r.source = Origin.fallback_quota_global_minute ∨
       originOf r.source = Origin.fallback_quota_global_hour ∨
       originOf r.source = Origin.fallback_quota_user_minute) ∧
      reasonString (originOf r.source) =
        (is_rate_limited (get_cached_feedback quotaState
          (generate_cache_key "A" "WRIST_BEND") 30).2 "u1" 30).1.2 ∧
      dictGet s'.cache (generate_cache_key "A" "WRIST_BEND") =
        some ({ response := r, timestamp := 30 }) ∧
      s'.request_stats.rate_limited_requests =
        quotaState.request_stats.rate_limited_requests + 1 ∧
      s'.request_stats.total_requests = quotaState.request_stats.total_requests :=
  quota_denied_graceful_fallback noUpstream quotaState "A" "WRIST_BEND" "u1" 30
    (by decide) (by decide) (by decide)

/-- Counterexample to C3: on a cache-missed, quota-admitted request that
finds the upstream disabled, the code (line 359, before the disabled check
at line 362) appends `now` to all three quota windows and bumps
`total_requests` — the claim that this path terminates without recording
is false on the very first disabled-path request. -/
theorem disabled_path_records_quota :
    baseState.request_timestamps = [] ∧
    baseState.enabled = false ∧
    (runResponse (get_feedback noUpstream baseState "A" "XYZ" "u" 10)
      dummyResponse).source = "fallback" ∧
    (runState (get_feedback noUpstream baseState "A" "XYZ" "u" 10)
      baseState).request_timestamps = [10] ∧
    (runState (get_feedback noUpstream baseState "A" "XYZ" "u" 10)
      baseState).hourly_request_timestamps = [10] ∧
    dictGet (runState (get_feedback noUpstream baseState "A" "XYZ" "u" 10)
      baseState).user_request_limits "u" = some [10] ∧
    (runState (get_feedback noUpstream baseState "A" "XYZ" "u" 10)
      baseState).request_stats.total_requests = 1 ∧
    (runState (get_feedback noUpstream baseState "A" "XYZ" "u" 10)
      baseState).request_stats.fallback_requests = 1 := by
  decide

/-- Counterexample to C5: `get_rate_limit_status` is not mutation-free —
it prunes the stale timestamp from the global minute window and lazily
creates an empty window for the unseen caller, so the state after the call
differs from the state before. -/
theorem rate_limit_status_mutates :
    staleState.request_timestamps = [0] ∧
    (get_rate_limit_status staleState "u" 100).2.request_timestamps = [] ∧
    dictGet staleState.user_request_limits "u" = none ∧
    dictGet (get_rate_limit_status staleState "u" 100).2.user_request_limits "u"
      = some [] ∧
    (get_rate_limit_status staleState "u" 100).2 ≠ staleState := by
  decide

/-- C5 amended: the rate-limit status query reports counts and headroom
without ever touching the cache or the statistics; its only mutations are
pruning stale timestamps from the quota windows and lazily materializing
the queried caller's window — in particular, on a state whose windows are
already pruned and whose caller is already tracked with a pruned window,
the call leaves the broker state exactly unchanged. -/
theorem rate_limit_status_frame (s : BedrockState) (user_id : String) (now : Nat)
    (uw : List Nat) :
    (∀ (t : BedrockState) (u : String) (n : Nat),
      (get_rate_limit_status t u n).2.cache = t.cache ∧
      (get_rate_limit_status t u n).2.request_stats = t.request_stats) ∧
    (s.request_timestamps.filter (fun ts => now - ts < 60) = s.request_timestamps →
     s.hourly_request_timestamps.filter (fun ts => now - ts < 3600)
        = s.hourly_request_timestamps →
     dictGet s.user_request_limits user_id = some uw →
     uw.filter (fun ts => now - ts < 60) = uw →
     (get_rate_limit_status s user_id now).2 = s) := by
  constructor
  · intro t u n
    unfold get_rate_limit_status
    cases hu : dictGet t.user_request_limits u with
    | none =>
        simp only [hu]
        obtain ⟨w1, w2, m, hsh⟩ := is_rate_limited_shape
          ({ t with
              request_timestamps := t.request_timestamps.filter (fun ts => n - ts < 60),
              hourly_request_timestamps :=
                t.hourly_request_timestamps.filter (fun ts => n - ts < 3600) }) u n
        rw [hsh]
        exact ⟨rfl, rfl⟩
    | some uw' =>
        simp only [hu]
        obtain ⟨w1, w2, m, hsh⟩ := is_rate_limited_shape
          ({ t with
              request_timestamps := t.request_timestamps.filter (fun ts => n - ts < 60),
              hourly_request_timestamps :=
                t.hourly_request_timestamps.filter (fun ts => n - ts < 3600),
              user_request_limits := (dictInsert t.user_request_limits u
                (uw'.filter (fun ts => n - ts < 60))) }) u n
        rw [hsh]
        exact ⟨rfl, rfl⟩
  · intro h1 h2 hu h3
    have hfix := is_rate_limited_pruned_fixed s user_id now uw h1 h2 hu h3
    unfold get_rate_limit_status
    simp only [h1, h2, hu]
    simp [h3, dictInsert_self_of_get _ _ _ hu, hfix]

/-- Witness for the amended C5 at a fully pruned, tracked-caller state. -/
theorem rate_limit_status_frame_witness :
    ((get_rate_limit_status baseState "z" 7).2.cache = baseState.cache ∧
     (get_rate_limit_status baseState "z" 7).2.request_stats
        = baseState.request_stats) ∧
    (get_rate_limit_status quotaState "u1" 30).2 = quotaState :=
  ⟨(rate_limit_status_frame quotaState "u1" 30 [1, 2, 3]).1 baseState "z" 7,
   (rate_limit_status_frame quotaState "u1" 30 [1, 2, 3]).2
     (by decide) (by decide) (by decide) (by decide)⟩

/-- C3 amended: the quota record (`_add_request_timestamp`, appending
"now" to all three windows and bumping `total_requests`) happens exactly
on quota-admitted cache-miss requests — including one that then finds the
upstream disabled, because the code records at line 359 before the
disabled check at line 362; it never happens on a cache-hit or denied
path (those at most prune stale timestamps). -/
theorem record_exactly_on_admitted_requests (upstream : String → UpstreamOutcome)
    (s : BedrockState) (sign error_code user_id : String) (now : Nat) :
    (∀ r, (get_cached_feedback s (generate_cache_key sign error_code) now).1 = some r →
      (runState (get_feedback upstream s sign error_code user_id now) s).request_timestamps
          = s.request_timestamps ∧
      (runState (get_feedback upstream s sign error_code user_id now) s).hourly_request_timestamps
          = s.hourly_request_timestamps ∧
      (runState (get_feedback upstream s sign error_code user_id now) s).user_request_limits
          = s.user_request_limits ∧
      (runState (get_feedback upstream s sign error_code user_id now) s).request_stats.total_requests
          = s.request_stats.total_requests) ∧
    ((get_cached_feedback s (generate_cache_key sign error_code) now).1 = none →
      (is_rate_limited (get_cached_feedback s (generate_cache_key sign error_code) now).2
        user_id now).1.1 = true →
      1 ≤ s.max_cache_size →
      (runState (get_feedback upstream s sign error_code user_id now) s).request_timestamps
          = s.request_timestamps.filter (fun ts => now - ts < 60) ∧
      (runState (get_feedback upstream s sign error_code user_id now) s).hourly_request_timestamps
          = s.hourly_request_timestamps.filter (fun ts => now - ts < 3600) ∧
      (dictGet (runState (get_feedback upstream s sign error_code user_id now) s).user_request_limits
          user_id = dictGet s.user_request_limits user_id ∨
       dictGet (runState (get_feedback upstream s sign error_code user_id now) s).user_request_limits
          user_id = some (((dictGet s.user_request_limits user_id).getD []).filter
            (fun ts => now - ts < 60))) ∧
      (runState (get_feedback upstream s sign error_code user_id now) s).request_stats.total_requests
          = s.request_stats.total_requests) ∧
    ((get_cached_feedback s (generate_cache_key sign error_code) now).1 = none →
      (is_rate_limited (get_cached_feedback s (generate_cache_key sign error_code) now).2
        user_id now).1.1 = false →
      (s.enabled = false ∨ s.client = false) →
      1 ≤ s.max_cache_size →
      (runState (get_feedback upstream s sign error_code user_id now) s).request_timestamps
          = s.request_timestamps.filter (fun ts => now - ts < 60) ++ [now] ∧
      (runState (get_feedback upstream s sign error_code user_id now) s).hourly_request_timestamps
          = s.hourly_request_timestamps.filter (fun ts => now - ts < 3600) ++ [now] ∧
      dictGet (runState (get_feedback upstream s sign error_code user_id now) s).user_request_limits
          user_id = some ((((dictGet s.user_request_limits user_id).getD []).filter
            (fun ts => now - ts < 60)) ++ [now]) ∧
      (runState (get_feedback upstream s sign error_code user_id now) s).request_stats.total_requests
          = s.request_stats.total_requests + 1 ∧
      (runState (get_feedback upstream s sign error_code user_id now) s).request_stats.fallback_requests
          = s.request_stats.fallback_requests + 1 ∧
      (runResponse (get_feedback upstream s sign error_code user_id now) dummyResponse).source
          = "fallback") := by
  obtain ⟨c1, hc1⟩ := get_cached_feedback_shape s (generate_cache_key sign error_code) now
  refine ⟨?_, ?_, ?_⟩
  · intro r hhit
    rw [get_feedback_hit upstream s sign error_code user_id now r hhit]
    simp [runState, incCached, hc1]
  · intro hmiss hden hmax
    have hmax2 : 1 ≤ (incRateLimited
        (is_rate_limited (get_cached_feedback s (generate_cache_key sign error_code) now).2
          user_id now).2).max_cache_size := by
      obtain ⟨w1, w2, m, hshape⟩ := is_rate_limited_shape
        (get_cached_feedback s (generate_cache_key sign error_code) now).2 user_id now
      show 1 ≤ (is_rate_limited (get_cached_feedback s
        (generate_cache_key sign error_code) now).2 user_id now).2.max_cache_size
      rw [hshape]
      show 1 ≤ (get_cached_feedback s (generate_cache_key sign error_code) now).2.max_cache_size
      rw [hc1]
      exact hmax
    obtain ⟨s4, hok⟩ := cache_feedback_ok_of_pos _ (generate_cache_key sign error_code)
      (mkFallback true error_code sign now
        ("fallback_rate_limited_" ++
          (is_rate_limited (get_cached_feedback s (generate_cache_key sign error_code) now).2
            user_id now).1.2)) now hmax2
    obtain ⟨c4, hc4⟩ := cache_feedback_ok_shape _ _ _ _ _ hok
    have hg := is_rate_limited_globals
      (get_cached_feedback s (generate_cache_key sign error_code) now).2 user_id now
    rw [get_feedback_denied upstream s sign error_code user_id now hmiss hden, hok]
    have hrun : runState (Except.map (fun s4 => (mkFallback true error_code sign now
        ("fallback_rate_limited_" ++
          (is_rate_limited (get_cached_feedback s (generate_cache_key sign error_code) now).2
            user_id now).1.2), s4)) (Except.ok s4)) s = s4 := rfl
    rw [hrun, hc4]
    refine ⟨?_, ?_, ?_, ?_⟩
    · show (incRateLimited _).request_timestamps = _
      rw [incRateLimited]
      show (is_rate_limited (get_cached_feedback s
        (generate_cache_key sign error_code) now).2 user_id now).2.request_timestamps = _
      rw [hg.1, hc1]
    · show (incRateLimited _).hourly_request_timestamps = _
      rw [incRateLimited]
      show (is_rate_limited (get_cached_feedback s
        (generate_cache_key sign error_code) now).2 user_id now).2.hourly_request_timestamps = _
      rw [hg.2, hc1]
    · rcases is_rate_limited_user_map
        (get_cached_feedback s (generate_cache_key sign error_code) now).2 user_id now with
        hm | hm
      · left
        show dictGet (incRateLimited _).user_request_limits user_id = _
        rw [incRateLimited]
        show dictGet (is_rate_limited (get_cached_feedback s
          (generate_cache_key sign error_code) now).2 user_id now).2.user_request_limits
            user_id = _
        rw [hm, hc1]
      · right
        show dictGet (incRateLimited _).user_request_limits user_id = _
        rw [incRateLimited]
        show dictGet (is_rate_limited (get_cached_feedback s
          (generate_cache_key sign error_code) now).2 user_id now).2.user_request_limits
            user_id = _
        rw [hm, hc1]
        exact dictGet_dictInsert_self _ _ _
    · show (incRateLimited _).request_stats.total_requests = _
      rw [incRateLimited]
      show (is_rate_limited (get_cached_feedback s
        (generate_cache_key sign error_code) now).2 user_id now).2.request_stats.total_requests = _
      obtain ⟨w1, w2, m, hshape⟩ := is_rate_limited_shape
        (get_cached_feedback s (generate_cache_key sign error_code) now).2 user_id now
      rw [hshape]
      show (get_cached_feedback s
        (generate_cache_key sign error_code) now).2.request_stats.total_requests = _
      rw [hc1]
  · intro hmiss hadm hdis hmax
    have hmax2 : 1 ≤ (incFallback (add_request_timestamp
        (is_rate_limited (get_cached_feedback s (generate_cache_key sign error_code) now).2
          user_id now).2 user_id now)).max_cache_size := by
      obtain ⟨w1, w2, m, hshape⟩ := is_rate_limited_shape
        (get_cached_feedback s (generate_cache_key sign error_code) now).2 user_id now
      show 1 ≤ (is_rate_limited (get_cached_feedback s
        (generate_cache_key sign error_code) now).2 user_id now).2.max_cache_size
      rw [hshape]
      show 1 ≤ (get_cached_feedback s (generate_cache_key sign error_code) now).2.max_cache_size
      rw [hc1]
      exact hmax
    obtain ⟨s4, hok⟩ := cache_feedback_ok_of_pos _ (generate_cache_key sign error_code)
      (mkFallback true error_code sign now "fallback") now hmax2
    obtain ⟨c4, hc4⟩ := cache_feedback_ok_shape _ _ _ _ _ hok
    have hg := is_rate_limited_globals
      (get_cached_feedback s (generate_cache_key sign error_code) now).2 user_id now
    have hm := is_rate_limited_admitted_user_map
      (get_cached_feedback s (generate_cache_key sign error_code) now).2 user_id now hadm
    rw [get_feedback_disabled upstream s sign error_code user_id now hmiss hadm hdis, hok]
    have hrun : runState (Except.map
        (fun s4 => (mkFallback true error_code sign now "fallback", s4))
        (Except.ok s4)) s = s4 := rfl
    have hresp : runResponse (Except.map
        (fun s4 => (mkFallback true error_code sign now "fallback", s4))
        (Except.ok s4)) dummyResponse = mkFallback true error_code sign now "fallback" := rfl
    rw [hrun, hresp, hc4]
    have hstats : (is_rate_limited (get_cached_feedback s
        (generate_cache_key sign error_code) now).2 user_id now).2.request_stats
          = s.request_stats := by
      obtain ⟨w1, w2, m, hshape⟩ := is_rate_limited_shape
        (get_cached_feedback s (generate_cache_key sign error_code) now).2 user_id now
      rw [hshape]
      show (get_cached_feedback s
        (generate_cache_key sign error_code) now).2.request_stats = s.request_stats
      rw [hc1]
    refine ⟨?_, ?_, ?_, ?_, ?_, rfl⟩
    · show (incFallback _).request_timestamps = _
      rw [incFallback]
      show (add_request_timestamp _ user_id now).request_timestamps = _
      rw [add_request_timestamp]
      show (is_rate_limited (get_cached_feedback s
        (generate_cache_key sign error_code) now).2 user_id now).2.request_timestamps ++ [now] = _
      rw [hg.1, hc1]
    · show (incFallback _).hourly_request_timestamps = _
      rw [incFallback]
      show (add_request_timestamp _ user_id now).hourly_request_timestamps = _
      rw [add_request_timestamp]
      show (is_rate_limited (get_cached_feedback s
        (generate_cache_key sign error_code) now).2 user_id now).2.hourly_request_timestamps
          ++ [now] = _
      rw [hg.2, hc1]
    · show dictGet (incFallback _).user_request_limits user_id = _
      rw [incFallback]
      show dictGet (add_request_timestamp _ user_id now).user_request_limits user_id = _
      rw [add_request_timestamp]
      show dictGet (dictInsert (is_rate_limited (get_cached_feedback s
        (generate_cache_key sign error_code) now).2 user_id now).2.user_request_limits user_id
          (((dictGet (is_rate_limited (get_cached_feedback s
            (generate_cache_key sign error_code) now).2 user_id
              now).2.user_request_limits user_id).getD []) ++ [now])) user_id = _
      rw [hm, hc1]
      simp [dictGet_dictInsert_self]
    · show (incFallback _).request_stats.total_requests = _
      rw [incFallback]
      show (add_request_timestamp _ user_id now).request_stats.total_requests = _
      rw [add_request_timestamp]
      show (is_rate_limited (get_cached_feedback s
        (generate_cache_key sign error_code) now).2 user_id
          now).2.request_stats.total_requests + 1 = _
      rw [hstats]
    · show (incFallback _).request_stats.fallback_requests = _
      rw [incFallback]
      show (add_request_timestamp _ user_id now).request_stats.fallback_requests + 1 = _
      rw [add_request_timestamp]
      show (is_rate_limited (get_cached_feedback s
        (generate_cache_key sign error_code) now).2 user_id
          now).2.request_stats.fallback_requests + 1 = _
      rw [hstats]

/-- Witness for the amended C3: a concrete cache hit and a concrete
quota denial leave the windows and the total counter unrecorded, while a
concrete admitted disabled-upstream request is recorded. -/
theorem record_exactly_on_admitted_requests_witness :
    ((runState (get_feedback noUpstream hitState "A" "THUMB_LOW" "u" 5)
        hitState).request_timestamps = hitState.request_timestamps ∧
      (runState (get_feedback noUpstream hitState "A" "THUMB_LOW" "u" 5)
        hitState).hourly_request_timestamps = hitState.hourly_request_timestamps ∧
      (runState (get_feedback noUpstream hitState "A" "THUMB_LOW" "u" 5)
        hitState).user_request_limits = hitState.user_request_limits ∧
      (runState (get_feedback noUpstream hitState "A" "THUMB_LOW" "u" 5)
        hitState).request_stats.total_requests
          = hitState.request_stats.total_requests) ∧
    ((runState (get_feedback noUpstream quotaState "A" "WRIST_BEND" "u1" 30)
        quotaState).request_timestamps
          = quotaState.request_timestamps.filter (fun ts => 30 - ts < 60) ∧
      (runState (get_feedback noUpstream quotaState "A" "WRIST_BEND" "u1" 30)
        quotaState).hourly_request_timestamps
          = quotaState.hourly_request_timestamps.filter (fun ts => 30 - ts < 3600) ∧
      (dictGet (runState (get_feedback noUpstream quotaState "A" "WRIST_BEND" "u1" 30)
          quotaState).user_request_limits "u1"
            = dictGet quotaState.user_request_limits "u1" ∨
       dictGet (runState (get_feedback noUpstream quotaState "A" "WRIST_BEND" "u1" 30)
          quotaState).user_request_limits "u1"
            = some (((dictGet quotaState.user_request_limits "u1").getD []).filter
              (fun ts => 30 - ts < 60))) ∧
      (runState (get_feedback noUpstream quotaState "A" "WRIST_BEND" "u1" 30)
        quotaState).request_stats.total_requests
          = quotaState.request_stats.total_requests) ∧
    ((runState (get_feedback noUpstream baseState "A" "XYZ" "u" 10)
        baseState).request_timestamps
          = baseState.request_timestamps.filter (fun ts => 10 - ts < 60) ++ [10] ∧
      (runState (get_feedback noUpstream baseState "A" "XYZ" "u" 10)
        baseState).hourly_request_timestamps
          = baseState.hourly_request_timestamps.filter (fun ts => 10 - ts < 3600) ++ [10] ∧
      dictGet (runState (get_feedback noUpstream baseState "A" "XYZ" "u" 10)
        baseState).user_request_limits "u"
          = some ((((dictGet baseState.user_request_limits "u").getD []).filter
            (fun ts => 10 - ts < 60)) ++ [10]) ∧
      (runState (get_feedback noUpstream baseState "A" "XYZ" "u" 10)
        baseState).request_stats.total_requests
          = baseState.request_stats.total_requests + 1 ∧
      (runState (get_feedback noUpstream baseState "A" "XYZ" "u" 10)
        baseState).request_stats.fallback_requests
          = baseState.request_stats.fallback_requests + 1 ∧
      (runResponse (get_feedback noUpstream baseState "A" "XYZ" "u" 10)
        dummyResponse).source = "fallback") :=
  ⟨(record_exactly_on_admitted_requests noUpstream hitState "A" "THUMB_LOW" "u" 5).1
      ({ hitResponse with cached := true }) (by decide),
   (record_exactly_on_admitted_requests noUpstream quotaState "A" "WRIST_BEND" "u1" 30).2.1
      (by decide) (by decide) (by decide),
   (record_exactly_on_admitted_requests noUpstream baseState "A" "XYZ" "u" 10).2.2
      (by decide) (by decide) (Or.inl (by decide)) (by decide)⟩

/-- Witness for the amended C1 at the concrete single-entry state. -/
theorem cache_hit_returns_aliased_record_witness :
    get_feedback noUpstream hitState "A" "THUMB_LOW" "u" 5 =
      Except.ok ({ hitResponse with cached := true },
        incCached ({ hitState with cache := (dictInsert hitState.cache
          (generate_cache_key "A" "THUMB_LOW")
          { hitEntry with response := { hitResponse with cached := true } }) })) :=
  cache_hit_returns_aliased_record noUpstream hitState "A" "THUMB_LOW" "u" 5
    hitEntry (by decide) (by decide)

/-- C7: `get_feedback` is total over its input domain: for every
(target, errorCode, callerId) triple — including error codes absent from
the catalog and empty target strings — it returns (never raises) a
response with a non-empty message; unknown codes fall back to the
catalog's generic default and upstream failures are converted to fallback
results.  Hypotheses: the configured capacity is at least one (see C10 for
the `max_cache_size = 0` failure), the upstream's successful replies are
non-empty, and every already-cached message is non-empty (true of every
reachable state, as all writes store catalog or provider messages). -/
theorem get_feedback_total (upstream : String → UpstreamOutcome) (s : BedrockState)
    (sign error_code user_id : String) (now : Nat)
    (hmax : 1 ≤ s.max_cache_size)
    (hup : ∀ p t, upstream p = UpstreamOutcome.ok t → t ≠ "")
    (hcache : ∀ p ∈ s.cache, p.2.response.feedback ≠ "") :
    ∃ r s', get_feedback upstream s sign error_code user_id now = Except.ok (r, s') ∧
      r.feedback ≠ "" := by
  cases hh : (get_cached_feedback s (generate_cache_key sign error_code) now).1 with
  | some r =>
      rw [get_feedback_hit upstream s sign error_code user_id now r hh]
      obtain ⟨e, he, hr⟩ := get_cached_feedback_hit_inv s
        (generate_cache_key sign error_code) now r hh
      refine ⟨r, _, rfl, ?_⟩
      rw [hr]
      exact hcache _ (dictGet_mem _ _ _ he)
  | none =>
      cases hden : (is_rate_limited (get_cached_feedback s
          (generate_cache_key sign error_code) now).2 user_id now).1.1 with
      | true =>
          have hmax2 : 1 ≤ (incRateLimited (is_rate_limited (get_cached_feedback s
              (generate_cache_key sign error_code) now).2 user_id now).2).max_cache_size := by
            show 1 ≤ (is_rate_limited (get_cached_feedback s
              (generate_cache_key sign error_code) now).2 user_id now).2.max_cache_size
            rw [post_lookup_max]
            exact hmax
          obtain ⟨s4, hok⟩ := cache_feedback_ok_of_pos _ (generate_cache_key sign error_code)
            (mkFallback true error_code sign now
              ("fallback_rate_limited_" ++ (is_rate_limited (get_cached_feedback s
                (generate_cache_key sign error_code) now).2 user_id now).1.2)) now hmax2
          rw [get_feedback_denied upstream s sign error_code user_id now hh hden, hok]
          exact ⟨_, s4, rfl, fallbackFor_ne_empty error_code⟩
      | false =>
          by_cases hdis : s.enabled = false ∨ s.client = false
          · have hmax2 : 1 ≤ (incFallback (add_request_timestamp
                (is_rate_limited (get_cached_feedback s (generate_cache_key sign error_code)
                  now).2 user_id now).2 user_id now)).max_cache_size := by
              show 1 ≤ (is_rate_limited (get_cached_feedback s
                (generate_cache_key sign error_code) now).2 user_id now).2.max_cache_size
              rw [post_lookup_max]
              exact hmax
            obtain ⟨s4, hok⟩ := cache_feedback_ok_of_pos _ (generate_cache_key sign error_code)
              (mkFallback true error_code sign now "fallback") now hmax2
            rw [get_feedback_disabled upstream s sign error_code user_id now hh hden hdis, hok]
            exact ⟨_, s4, rfl, fallbackFor_ne_empty error_code⟩
          · rw [not_or] at hdis
            obtain ⟨hen, hcl⟩ := hdis
            rw [Bool.not_eq_false] at hen hcl
            rw [get_feedback_provider upstream s sign error_code user_id now hh hden hen hcl]
            cases hupo : upstream (create_prompt sign error_code) with
            | ok text =>
                simp only [hupo]
                have hmax2 : 1 ≤ (incBedrock (add_request_timestamp
                    (is_rate_limited (get_cached_feedback s (generate_cache_key sign error_code)
                      now).2 user_id now).2 user_id now)).max_cache_size := by
                  show 1 ≤ (is_rate_limited (get_cached_feedback s
                    (generate_cache_key sign error_code) now).2 user_id now).2.max_cache_size
                  rw [post_lookup_max]
                  exact hmax
                obtain ⟨s5, hok⟩ := cache_feedback_ok_of_pos _
                  (generate_cache_key sign error_code)
                  (mkProvider text error_code sign now) now hmax2
                rw [hok]
                exact ⟨_, s5, rfl, hup _ _ hupo⟩
            | clientError =>
                simp only [hupo]
                have hmax2 : 1 ≤ (incFallback (add_request_timestamp
                    (is_rate_limited (get_cached_feedback s (generate_cache_key sign error_code)
                      now).2 user_id now).2 user_id now)).max_cache_size := by
                  show 1 ≤ (is_rate_limited (get_cached_feedback s
                    (generate_cache_key sign error_code) now).2 user_id now).2.max_cache_size
                  rw [post_lookup_max]
                  exact hmax
                obtain ⟨s4, hok⟩ := cache_feedback_ok_of_pos _
                  (generate_cache_key sign error_code)
                  (mkFallback false error_code sign now "fallback_bedrock_error") now hmax2
                rw [hok]
                exact ⟨_, s4, rfl, fallbackFor_ne_empty error_code⟩
            | otherError =>
                simp only [hupo]
                have hmax2 : 1 ≤ (incFallback (add_request_timestamp
                    (is_rate_limited (get_cached_feedback s (generate_cache_key sign error_code)
                      now).2 user_id now).2 user_id now)).max_cache_size := by
                  show 1 ≤ (is_rate_limited (get_cached_feedback s
                    (generate_cache_key sign error_code) now).2 user_id now).2.max_cache_size
                  rw [post_lookup_max]
                  exact hmax
                obtain ⟨s4, hok⟩ := cache_feedback_ok_of_pos _
                  (generate_cache_key sign error_code)
                  (mkFallback false error_code sign now "fallback_unexpected_error") now hmax2
                rw [hok]
                exact ⟨_, s4, rfl, fallbackFor_ne_empty error_code⟩

/-- Witness for C7: an unknown error code with an empty target on a fresh
disabled-upstream broker still yields a non-empty message. -/
theorem get_feedback_total_witness :
    ∃ r s', get_feedback noUpstream baseState "" "NOT_A_CODE" "u" 3 =
      Except.ok (r, s') ∧ r.feedback ≠ "" :=
  get_feedback_total noUpstream baseState "" "NOT_A_CODE" "u" 3 (by decide)
    (fun p t h => UpstreamOutcome.noConfusion h) (by decide)

/-- One `get_feedback` call returns normally, preserves the capacity
configuration, and moves `total_requests` and
`bedrock_requests + fallback_requests` by the same delta (0 or 1). -/
theorem get_feedback_stats_step (upstream : String → UpstreamOutcome) (s : BedrockState)
    (sign error_code user_id : String) (now : Nat) (hmax : 1 ≤ s.max_cache_size) :
    ∃ r s' d, get_feedback upstream s sign error_code user_id now = Except.ok (r, s') ∧
      s'.max_cache_size = s.max_cache_size ∧
      s'.request_stats.total_requests = s.request_stats.total_requests + d ∧
      s'.request_stats.bedrock_requests + s'.request_stats.fallback_requests
        = s.request_stats.bedrock_requests + s.request_stats.fallback_requests + d := by
  obtain ⟨c1, hc1⟩ := get_cached_feedback_shape s (generate_cache_key sign error_code) now
  have hpm := post_lookup_max s (generate_cache_key sign error_code) user_id now
  have hps := post_lookup_stats s (generate_cache_key sign error_code) user_id now
  cases hh : (get_cached_feedback s (generate_cache_key sign error_code) now).1 with
  | some r =>
      rw [get_feedback_hit upstream s sign error_code user_id now r hh]
      refine ⟨r, _, 0, rfl, ?_, ?_, ?_⟩
      · simp [incCached, hc1]
      · simp [incCached, hc1]
      · simp [incCached, hc1]
  | none =>
      cases hden : (is_rate_limited (get_cached_feedback s
          (generate_cache_key sign error_code) now).2 user_id now).1.1 with
      | true =>
          have hmax2 : 1 ≤ (incRateLimited (is_rate_limited (get_cached_feedback s
              (generate_cache_key sign error_code) now).2 user_id now).2).max_cache_size := by
            show 1 ≤ (is_rate_limited (get_cached_feedback s
              (generate_cache_key sign error_code) now).2 user_id now).2.max_cache_size
            rw [hpm]
            exact hmax
          obtain ⟨s4, hok⟩ := cache_feedback_ok_of_pos _ (generate_cache_key sign error_code)
            (mkFallback true error_code sign now
              ("fallback_rate_limited_" ++ (is_rate_limited (get_cached_feedback s
                (generate_cache_key sign error_code) now).2 user_id now).1.2)) now hmax2
          obtain ⟨c4, hc4⟩ := cache_feedback_ok_shape _ _ _ _ _ hok
          rw [get_feedback_denied upstream s sign error_code user_id now hh hden, hok]
          refine ⟨_, s4, 0, rfl, ?_, ?_, ?_⟩
          · rw [hc4]
            simp [incRateLimited, hpm]
          · rw [hc4]
            simp [incRateLimited, hps]
          · rw [hc4]
            simp [incRateLimited, hps]
      | false =>
          have hmaxart : ∀ t : BedrockState, t = (is_rate_limited (get_cached_feedback s
              (generate_cache_key sign error_code) now).2 user_id now).2 →
              1 ≤ (add_request_timestamp t user_id now).max_cache_size := by
            intro t ht
            show 1 ≤ t.max_cache_size
            rw [ht, hpm]
            exact hmax
          by_cases hdis : s.enabled = false ∨ s.client = false
          · obtain ⟨s4, hok⟩ := cache_feedback_ok_of_pos
              (incFallback (add_request_timestamp (is_rate_limited (get_cached_feedback s
                (generate_cache_key sign error_code) now).2 user_id now).2 user_id now))
              (generate_cache_key sign error_code)
              (mkFallback true error_code sign now "fallback") now (hmaxart ((is_rate_limited (get_cached_feedback s
                    (generate_cache_key sign error_code) now).2 user_id now).2) rfl)
            obtain ⟨c4, hc4⟩ := cache_feedback_ok_shape _ _ _ _ _ hok
            rw [get_feedback_disabled upstream s sign error_code user_id now hh hden hdis, hok]
            refine ⟨_, s4, 1, rfl, ?_, ?_, ?_⟩
            · rw [hc4]
              simp [incFallback, add_request_timestamp, hpm]
            · rw [hc4]
              simp [incFallback, add_request_timestamp, hps]
            · rw [hc4]
              simp [incFallback, add_request_timestamp, hps]
              omega
          · rw [not_or] at hdis
            obtain ⟨hen, hcl⟩ := hdis
            rw [Bool.not_eq_false] at hen hcl
            rw [get_feedback_provider upstream s sign error_code user_id now hh hden hen hcl]
            cases hupo : upstream (create_prompt sign error_code) with
            | ok text =>
                simp only [hupo]
                obtain ⟨s5, hok⟩ := cache_feedback_ok_of_pos
                  (incBedrock (add_request_timestamp (is_rate_limited (get_cached_feedback s
                    (generate_cache_key sign error_code) now).2 user_id now).2 user_id now))
                  (generate_cache_key sign error_code)
                  (mkProvider text error_code sign now) now (hmaxart ((is_rate_limited (get_cached_feedback s
                    (generate_cache_key sign error_code) now).2 user_id now).2) rfl)
                obtain ⟨c5, hc5⟩ := cache_feedback_ok_shape _ _ _ _ _ hok
                rw [hok]
                refine ⟨_, s5, 1, rfl, ?_, ?_, ?_⟩
                · rw [hc5]
                  simp [incBedrock, add_request_timestamp, hpm]
                · rw [hc5]
                  simp [incBedrock, add_request_timestamp, hps]
                · rw [hc5]
                  simp [incBedrock, add_request_timestamp, hps]
                  omega
            | clientError =>
                simp only [hupo]
                obtain ⟨s4, hok⟩ := cache_feedback_ok_of_pos
                  (incFallback (add_request_timestamp (is_rate_limited (get_cached_feedback s
                    (generate_cache_key sign error_code) now).2 user_id now).2 user_id now))
                  (generate_cache_key sign error_code)
                  (mkFallback false error_code sign now "fallback_bedrock_error") now
                  (hmaxart ((is_rate_limited (get_cached_feedback s
                    (generate_cache_key sign error_code) now).2 user_id now).2) rfl)
                obtain ⟨c4, hc4⟩ := cache_feedback_ok_shape _ _ _ _ _ hok
                rw [hok]
                refine ⟨_, s4, 1, rfl, ?_, ?_, ?_⟩
                · rw [hc4]
                  simp [incFallback, add_request_timestamp, hpm]
                · rw [hc4]
                  simp [incFallback, add_request_timestamp, hps]
                · rw [hc4]
                  simp [incFallback, add_request_timestamp, hps]
                  omega
            | otherError =>
                simp only [hupo]
                obtain ⟨s4, hok⟩ := cache_feedback_ok_of_pos
                  (incFallback (add_request_timestamp (is_rate_limited (get_cached_feedback s
                    (generate_cache_key sign error_code) now).2 user_id now).2 user_id now))
                  (generate_cache_key sign error_code)
                  (mkFallback false error_code sign now "fallback_unexpected_error") now
                  (hmaxart ((is_rate_limited (get_cached_feedback s
                    (generate_cache_key sign error_code) now).2 user_id now).2) rfl)
                obtain ⟨c4, hc4⟩ := cache_feedback_ok_shape _ _ _ _ _ hok
                rw [hok]
                refine ⟨_, s4, 1, rfl, ?_, ?_, ?_⟩
                · rw [hc4]
                  simp [incFallback, add_request_timestamp, hpm]
                · rw [hc4]
                  simp [incFallback, add_request_timestamp, hps]
                · rw [hc4]
                  simp [incFallback, add_request_timestamp, hps]
                  omega

/-- Over any request sequence the capacity configuration and the
invariant `total = bedrock + fallback` are preserved. -/
theorem runRequests_invariant (upstream : String → UpstreamOutcome)
    (reqs : List (String × String × String × Nat)) :
    ∀ s : BedrockState, 1 ≤ s.max_cache_size →
    s.request_stats.total_requests
      = s.request_stats.bedrock_requests + s.request_stats.fallback_requests →
    1 ≤ (runRequests upstream s reqs).max_cache_size ∧
    (runRequests upstream s reqs).request_stats.total_requests
      = (runRequests upstream s reqs).request_stats.bedrock_requests +
        (runRequests upstream s reqs).request_stats.fallback_requests := by
  induction reqs with
  | nil =>
      intro s h1 h2
      exact ⟨h1, h2⟩
  | cons q rest ih =>
      intro s h1 h2
      obtain ⟨r, s', d, heq, hm, ht, hbf⟩ :=
        get_feedback_stats_step upstream s q.1 q.2.1 q.2.2.1 q.2.2.2 h1
      have hrun : runState (get_feedback upstream s q.1 q.2.1 q.2.2.1 q.2.2.2) s = s' := by
        rw [heq]
        rfl
      rw [runRequests, hrun]
      exact ih s' (hm ▸ h1) (by omega)

/-- C9: the total-requests counter counts exactly the admitted,
non-cache-hit requests: after any sequence of `get_feedback` calls since
the last statistics reset, `total_requests` equals
`bedrock_requests + fallback_requests`; a cache hit increments only
`cached_requests` and a quota-denied request increments only
`rate_limited_requests`, each leaving `total_requests` (and every other
counter) unchanged.  (Requires the configured capacity of at least one so
that no call raises mid-update; see C10.) -/
theorem total_counts_only_admitted (upstream : String → UpstreamOutcome)
    (s : BedrockState) (reqs : List (String × String × String × Nat))
    (hmax : 1 ≤ s.max_cache_size) :
    ((runRequests upstream (reset_statistics s).2 reqs).request_stats.total_requests
      = (runRequests upstream (reset_statistics s).2 reqs).request_stats.bedrock_requests +
        (runRequests upstream (reset_statistics s).2 reqs).request_stats.fallback_requests) ∧
    (∀ (t : BedrockState) (sign error_code user_id : String) (now : Nat)
        (r : FeedbackResponse),
      (get_cached_feedback t (generate_cache_key sign error_code) now).1 = some r →
      (runState (get_feedback upstream t sign error_code user_id now) t).request_stats =
        { t.request_stats with
          cached_requests := t.request_stats.cached_requests + 1 }) ∧
    (∀ (t : BedrockState) (sign error_code user_id : String) (now : Nat),
      (get_cached_feedback t (generate_cache_key sign error_code) now).1 = none →
      (is_rate_limited (get_cached_feedback t (generate_cache_key sign error_code) now).2
        user_id now).1.1 = true →
      1 ≤ t.max_cache_size →
      (runState (get_feedback upstream t sign error_code user_id now) t).request_stats =
        { t.request_stats with
          rate_limited_requests := t.request_stats.rate_limited_requests + 1 }) := by
  refine ⟨?_, ?_, ?_⟩
  · have h1 : 1 ≤ (reset_statistics s).2.max_cache_size := hmax
    have h2 : (reset_statistics s).2.request_stats.total_requests
        = (reset_statistics s).2.request_stats.bedrock_requests +
          (reset_statistics s).2.request_stats.fallback_requests := rfl
    exact (runRequests_invariant upstream reqs (reset_statistics s).2 h1 h2).2
  · intro t sign error_code user_id now r hh
    obtain ⟨c1, hc1⟩ := get_cached_feedback_shape t (generate_cache_key sign error_code) now
    rw [get_feedback_hit upstream t sign error_code user_id now r hh]
    show (incCached (get_cached_feedback t
      (generate_cache_key sign error_code) now).2).request_stats = _
    rw [incCached]
    show ({ (get_cached_feedback t (generate_cache_key sign error_code) now).2.request_stats
      with cached_requests := (get_cached_feedback t (generate_cache_key sign error_code)
        now).2.request_stats.cached_requests + 1 } : RequestStats) = _
    rw [hc1]
  · intro t sign error_code user_id now hh hden hmaxt
    have hps := post_lookup_stats t (generate_cache_key sign error_code) user_id now
    have hmax2 : 1 ≤ (incRateLimited (is_rate_limited (get_cached_feedback t
        (generate_cache_key sign error_code) now).2 user_id now).2).max_cache_size := by
      show 1 ≤ (is_rate_limited (get_cached_feedback t
        (generate_cache_key sign error_code) now).2 user_id now).2.max_cache_size
      rw [post_lookup_max]
      exact hmaxt
    obtain ⟨s4, hok⟩ := cache_feedback_ok_of_pos _ (generate_cache_key sign error_code)
      (mkFallback true error_code sign now
        ("fallback_rate_limited_" ++ (is_rate_limited (get_cached_feedback t
          (generate_cache_key sign error_code) now).2 user_id now).1.2)) now hmax2
    obtain ⟨c4, hc4⟩ := cache_feedback_ok_shape _ _ _ _ _ hok
    rw [get_feedback_denied upstream t sign error_code user_id now hh hden, hok]
    show s4.request_stats = _
    rw [hc4]
    show (incRateLimited (is_rate_limited (get_cached_feedback t
      (generate_cache_key sign error_code) now).2 user_id now).2).request_stats = _
    rw [incRateLimited, hps]

/-- Witness for C9: a concrete three-request run from a reset state keeps
`total = bedrock + fallback`; a concrete hit bumps only the hit counter
and a concrete denial bumps only the quota-rejected counter. -/
theorem total_counts_only_admitted_witness :
    ((runRequests noUpstream (reset_statistics baseState).2
        [("A", "THUMB_LOW", "u", 10), ("A", "THUMB_LOW", "u", 20), ("B", "XYZ", "u", 30)]
        ).request_stats.total_requests
      = (runRequests noUpstream (reset_statistics baseState).2
          [("A", "THUMB_LOW", "u", 10), ("A", "THUMB_LOW", "u", 20), ("B", "XYZ", "u", 30)]
          ).request_stats.bedrock_requests +
        (runRequests noUpstream (reset_statistics baseState).2
          [("A", "THUMB_LOW", "u", 10), ("A", "THUMB_LOW", "u", 20), ("B", "XYZ", "u", 30)]
          ).request_stats.fallback_requests) ∧
    ((runState (get_feedback noUpstream hitState "A" "THUMB_LOW" "u" 5)
        hitState).request_stats =
      { hitState.request_stats with
        cached_requests := hitState.request_stats.cached_requests + 1 }) ∧
    ((runState (get_feedback noUpstream quotaState "A" "WRIST_BEND" "u1" 30)
        quotaState).request_stats =
      { quotaState.request_stats with
        rate_limited_requests := quotaState.request_stats.rate_limited_requests + 1 }) :=
  ⟨(total_counts_only_admitted noUpstream baseState
      [("A", "THUMB_LOW", "u", 10), ("A", "THUMB_LOW", "u", 20), ("B", "XYZ", "u", 30)]
      (by decide)).1,
   (total_counts_only_admitted noUpstream baseState [] (by decide)).2.1 hitState
      "A" "THUMB_LOW" "u" 5 ({ hitResponse with cached := true }) (by decide),
   (total_counts_only_admitted noUpstream baseState [] (by decide)).2.2 quotaState
      "A" "WRIST_BEND" "u1" 30 (by decide) (by decide) (by decide)⟩

end ASLFeedback

